import Mathlib

/-! # Schittkowski problems 48 and 66 (roboptim shared tests)

Embedding of `src/schittkowski/problem_48.cc` and `src/schittkowski/problem_66.cc`.

* Scalars (`double` in the source) are elements of a field `K`; the theorems
  instantiate `K` with the real numbers, executable checks may use the rationals.
* A dense vector is the list of its coefficients, a dense matrix the list of its rows.
  A sparse vector or matrix is its declared shape and the coefficients inserted so far.
* Every function body of the source is a straight-line sequence of writes into an
  output buffer.  A body is embedded as the list of its statements, in program order;
  reading `x[i]` outside the argument makes the body fail (`none`), and executing a
  write outside the buffer makes the execution fail (`none`).
-/

namespace roboptim

/-- Dense vector: every coefficient stored. -/
abbrev vector_t (K : Type) := List K

/-- Dense matrix: the list of its rows. -/
abbrev matrix_t (K : Type) := List (List K)

/-- Sparse vector: declared size and the inserted coefficients, in insertion order. -/
structure SparseVector (K : Type) where
  size : Nat
  entries : List (Nat × K)

/-- Sparse matrix: declared shape and the inserted coefficients, in insertion order. -/
structure SparseMatrix (K : Type) where
  rows : Nat
  cols : Nat
  entries : List ((Nat × Nat) × K)

/-- Statements on a dense buffer indexed by `ι`: `b.setZero ()` and `b (p) = v`
(written `b[p] = v` for a vector). -/
inductive DenseStmt (ι K : Type) where
  | setZero : DenseStmt ι K
  | assign (p : ι) (v : K) : DenseStmt ι K

/-- Statement on a sparse buffer indexed by `ι`: `b.insert (p) = v`. -/
inductive SparseStmt (ι K : Type) where
  | insert (p : ι) (v : K) : SparseStmt ι K

/-- Positions a dense body assigns explicitly (zero-filling is not an assignment). -/
def DenseStmt.assigned {ι K : Type} (s : List (DenseStmt ι K)) : List ι :=
  s.filterMap fun st =>
    match st with
    | .setZero => none
    | .assign p _ => some p

/-- Positions a sparse body inserts. -/
def SparseStmt.inserted {ι K : Type} (s : List (SparseStmt ι K)) : List ι :=
  s.map fun st =>
    match st with
    | .insert p _ => p

/-- Values a sparse body inserts. -/
def SparseStmt.values {ι K : Type} (s : List (SparseStmt ι K)) : List K :=
  s.map fun st =>
    match st with
    | .insert _ v => v

section Buffers

variable {K : Type} [Field K]

/-- One statement on a dense vector; an index outside the vector is an error. -/
def vector_t.step (b : vector_t K) : DenseStmt Nat K → Option (vector_t K)
  | .setZero => some (b.map fun _ => 0)
  | .assign i v => if i < b.length then some (b.set i v) else none

/-- Runs the statements of a body on a dense vector, in program order. -/
def vector_t.exec (s : List (DenseStmt Nat K)) (b : vector_t K) : Option (vector_t K) :=
  s.foldlM vector_t.step b

/-- One statement on a dense matrix; a position outside the matrix is an error. -/
def matrix_t.step (b : matrix_t K) : DenseStmt (Nat × Nat) K → Option (matrix_t K)
  | .setZero => some (b.map fun row => row.map fun _ => 0)
  | .assign (i, j) v =>
    match b[i]? with
    | some row => if j < row.length then some (b.set i (row.set j v)) else none
    | none => none

/-- Runs the statements of a body on a dense matrix, in program order. -/
def matrix_t.exec (s : List (DenseStmt (Nat × Nat) K)) (b : matrix_t K) :
    Option (matrix_t K) :=
  s.foldlM matrix_t.step b

/-- Zero dense vector of `n` coefficients. -/
def vector_t.zero (n : Nat) : vector_t K := List.replicate n 0

/-- Zero dense matrix of `m` rows and `n` columns. -/
def matrix_t.zero (m n : Nat) : matrix_t K := List.replicate m (List.replicate n 0)

/-- Empty sparse vector of declared size `n`. -/
def SparseVector.empty (n : Nat) : SparseVector K := ⟨n, []⟩

/-- Empty sparse matrix of declared shape `m × n`. -/
def SparseMatrix.empty (m n : Nat) : SparseMatrix K := ⟨m, n, []⟩

/-- `b.insert (i) = v`: the index must lie inside the vector and must not be stored yet. -/
def SparseVector.step (b : SparseVector K) : SparseStmt Nat K → Option (SparseVector K)
  | .insert i v =>
    if i < b.size ∧ i ∉ b.entries.map Prod.fst then
      some { b with entries := b.entries ++ [(i, v)] }
    else none

/-- Runs the statements of a body on a sparse vector, in program order. -/
def SparseVector.exec (s : List (SparseStmt Nat K)) (b : SparseVector K) :
    Option (SparseVector K) :=
  s.foldlM SparseVector.step b

/-- `b.insert (i,j) = v`: the position must lie inside the matrix and must not be stored
yet. -/
def SparseMatrix.step (b : SparseMatrix K) :
    SparseStmt (Nat × Nat) K → Option (SparseMatrix K)
  | .insert (i, j) v =>
    if i < b.rows ∧ j < b.cols ∧ (i, j) ∉ b.entries.map Prod.fst then
      some { b with entries := b.entries ++ [((i, j), v)] }
    else none

/-- Runs the statements of a body on a sparse matrix, in program order. -/
def SparseMatrix.exec (s : List (SparseStmt (Nat × Nat) K)) (b : SparseMatrix K) :
    Option (SparseMatrix K) :=
  s.foldlM SparseMatrix.step b

/-- Coefficient `i` of a sparse vector: the stored value, `0` when nothing is stored. -/
def SparseVector.coeff (b : SparseVector K) (i : Nat) : K :=
  match b.entries.find? fun e => e.1 == i with
  | some e => e.2
  | none => 0

/-- Coefficient `(i,j)` of a sparse matrix: the stored value, `0` when nothing is stored. -/
def SparseMatrix.coeff (b : SparseMatrix K) (i j : Nat) : K :=
  match b.entries.find? fun e => e.1 == (i, j) with
  | some e => e.2
  | none => 0

/-- Sparse vector read as a dense one: unset coefficients are `0`. -/
def SparseVector.toDense (b : SparseVector K) : vector_t K :=
  (List.range b.size).map b.coeff

/-- Sparse matrix read as a dense one: unset coefficients are `0`. -/
def SparseMatrix.toDense (b : SparseMatrix K) : matrix_t K :=
  (List.range b.rows).map fun i => (List.range b.cols).map fun j => b.coeff i j

/-- Interval `[lo, hi]` of the constraint and bound lists; an endpoint may be infinite. -/
abbrev interval_t (K : Type) := WithBot (WithTop K) × WithBot (WithTop K)

/-- Modelled from the spec: `makeInterval(a,b)` of the function library (not in this
repository) yields `lo=a, hi=b`. -/
def makeInterval (l u : K) : interval_t K :=
  (((l : WithTop K) : WithBot (WithTop K)), ((u : WithTop K) : WithBot (WithTop K)))

/-- Modelled from the spec: `makeLowerInterval(a)` of the function library (not in this
repository) yields `lo=a, hi=+infinity`. -/
def makeLowerInterval (l : K) : interval_t K :=
  (((l : WithTop K) : WithBot (WithTop K)), ((⊤ : WithTop K) : WithBot (WithTop K)))

/-- Modelled from the spec: the default variable bound of a problem is unbounded,
`lo=-infinity, hi=+infinity`. -/
def makeInfiniteInterval : interval_t K := (⊥, ((⊤ : WithTop K) : WithBot (WithTop K)))

/-- A value lies in an interval. -/
def interval_t.contains [LE K] (i : interval_t K) (v : K) : Prop :=
  i.1 ≤ ((v : WithTop K) : WithBot (WithTop K)) ∧
    ((v : WithTop K) : WithBot (WithTop K)) ≤ i.2

/-- An interval is well formed when `lo ≤ hi`. -/
def interval_t.wellFormed [LE K] (i : interval_t K) : Prop :=
  i.1 ≤ i.2

/-- A dense matrix has `m` rows of `n` coefficients each. -/
def matrix_t.hasShape (b : matrix_t K) (m n : Nat) : Prop :=
  b.length = m ∧ ∀ row ∈ b, row.length = n

end Buffers

namespace schittkowski

namespace problem48

section Code

variable {K : Type} [Field K]

/-- `ExpectedResult::f0`. -/
def ExpectedResult.f0 : K := 84

/-- `ExpectedResult::x`. -/
def ExpectedResult.x : vector_t K := [1, 1, 1, 1, 1]

/-- `ExpectedResult::fx`. -/
def ExpectedResult.fx : K := 0

/-- Input size declared by `F::F ()`. -/
def F.inputSize : Nat := 5

/-- Output size declared by `F::F ()`. -/
def F.outputSize : Nat := 1

/-- Body of `F<T>::impl_compute`. -/
def F.impl_compute_body (x : vector_t K) : Option (List (DenseStmt Nat K)) := do
  pure [
    .assign 0 (((← x[0]?) - 1) ^ 2
      + ((← x[1]?) - (← x[2]?)) ^ 2
      + ((← x[3]?) - (← x[4]?)) ^ 2)]

/-- `F<T>::impl_compute (result, x)`. -/
def F.impl_compute (result : vector_t K) (x : vector_t K) : Option (vector_t K) := do
  vector_t.exec (← F.impl_compute_body x) result

/-- Body of the specialisation `F<EigenMatrixSparse>::impl_gradient`. -/
def F.impl_gradient_sparse_body (x : vector_t K) : Option (List (SparseStmt Nat K)) := do
  pure [
    .insert 0 (2 * ((← x[0]?) - 1)),
    .insert 1 (2 * ((← x[1]?) - (← x[2]?))),
    .insert 2 (2 * (-(← x[1]?) + (← x[2]?))),
    .insert 3 (2 * ((← x[3]?) - (← x[4]?))),
    .insert 4 (2 * (-(← x[3]?) + (← x[4]?)))]

/-- `F<EigenMatrixSparse>::impl_gradient (grad, x, _)`; the third argument is unused. -/
def F.impl_gradient_sparse (grad : SparseVector K) (x : vector_t K) (_functionId : Nat) :
    Option (SparseVector K) := do
  SparseVector.exec (← F.impl_gradient_sparse_body x) grad

/-- Body of the generic (dense) `F<T>::impl_gradient`. -/
def F.impl_gradient_body (x : vector_t K) : Option (List (DenseStmt Nat K)) := do
  pure [
    .assign 0 (2 * ((← x[0]?) - 1)),
    .assign 1 (2 * ((← x[1]?) - (← x[2]?))),
    .assign 2 (2 * (-(← x[1]?) + (← x[2]?))),
    .assign 3 (2 * ((← x[3]?) - (← x[4]?))),
    .assign 4 (2 * (-(← x[3]?) + (← x[4]?)))]

/-- `F<T>::impl_gradient (grad, x, _)`, dense; the third argument is unused. -/
def F.impl_gradient (grad : vector_t K) (x : vector_t K) (_functionId : Nat) :
    Option (vector_t K) := do
  vector_t.exec (← F.impl_gradient_body x) grad

/-- Input size declared by `G::G ()`. -/
def G.inputSize : Nat := 5

/-- Output size declared by `G::G ()`. -/
def G.outputSize : Nat := 2

/-- Body of `G<T>::impl_compute`. -/
def G.impl_compute_body (x : vector_t K) : Option (List (DenseStmt Nat K)) := do
  pure [
    .assign 0 ((← x[0]?) + (← x[1]?) + (← x[2]?) + (← x[3]?) + (← x[4]?)),
    .assign 1 ((← x[2]?) - 2 * ((← x[3]?) + (← x[4]?)))]

/-- `G<T>::impl_compute (result, x)`. -/
def G.impl_compute (result : vector_t K) (x : vector_t K) : Option (vector_t K) := do
  vector_t.exec (← G.impl_compute_body x) result

/-- `G<T>::impl_gradient (_, _, _)`: the body is empty, the buffer is left as it is. -/
def G.impl_gradient (grad : vector_t K) (_x : vector_t K) (_functionId : Nat) :
    Option (vector_t K) :=
  some grad

/-- Body of the specialisation `G<EigenMatrixSparse>::impl_jacobian`; `x` is not read. -/
def G.impl_jacobian_sparse_body (_x : vector_t K) :
    Option (List (SparseStmt (Nat × Nat) K)) := do
  pure [
    .insert (0, 0) 1,
    .insert (0, 1) 1,
    .insert (0, 2) 1,
    .insert (0, 3) 1,
    .insert (0, 4) 1,
    .insert (1, 2) 1,
    .insert (1, 3) (-2),
    .insert (1, 4) (-2)]

/-- `G<EigenMatrixSparse>::impl_jacobian (jac, _)`. -/
def G.impl_jacobian_sparse (jac : SparseMatrix K) (x : vector_t K) :
    Option (SparseMatrix K) := do
  SparseMatrix.exec (← G.impl_jacobian_sparse_body x) jac

/-- Body of the generic (dense) `G<T>::impl_jacobian`; `x` is not read. -/
def G.impl_jacobian_body (_x : vector_t K) :
    Option (List (DenseStmt (Nat × Nat) K)) := do
  pure [
    .setZero,
    .assign (0, 0) 1,
    .assign (0, 1) 1,
    .assign (0, 2) 1,
    .assign (0, 3) 1,
    .assign (0, 4) 1,
    .assign (1, 2) 1,
    .assign (1, 3) (-2),
    .assign (1, 4) (-2)]

/-- `G<T>::impl_jacobian (jac, _)`, dense. -/
def G.impl_jacobian (jac : matrix_t K) (x : vector_t K) : Option (matrix_t K) := do
  matrix_t.exec (← G.impl_jacobian_body x) jac

/-- Tolerance `f0_tol` of the test case. -/
def f0_tol : K := 1e-4

/-- Tolerance `x_tol` of the test case. -/
def x_tol : K := 1e-4

/-- Tolerance `f_tol` of the test case. -/
def f_tol : K := 1e-4

/-- Intervals passed to `addConstraint` by `schittkowski_problem48`. -/
def intervals : List (interval_t K) :=
  ([] ++ [makeInterval 5 5]) ++ [makeInterval (-3) (-3)]

/-- Scales passed to `addConstraint` by `schittkowski_problem48`. -/
def scales : List K := List.replicate G.outputSize 1

/-- Starting point of `schittkowski_problem48`: `x << 3, 5, -3, 2, -2`. -/
def startingPoint : vector_t K := [3, 5, -3, 2, -2]

end Code

end problem48

namespace problem66

section Code

variable {K : Type} [Field K]

/-- `ExpectedResult::f0`. -/
def ExpectedResult.f0 : K := 0.58

/-- `ExpectedResult::x`. -/
def ExpectedResult.x : vector_t K := [0.1841264879, 1.202167873, 3.327322322]

/-- `ExpectedResult::fx`. -/
def ExpectedResult.fx : K := 0.5181632741

/-- Input size declared by `F::F ()`. -/
def F.inputSize : Nat := 3

/-- Output size declared by `F::F ()`. -/
def F.outputSize : Nat := 1

/-- Body of `F<T>::impl_compute`. -/
def F.impl_compute_body (x : vector_t K) : Option (List (DenseStmt Nat K)) := do
  pure [.assign 0 (0.2 * (← x[2]?) - 0.8 * (← x[0]?))]

/-- `F<T>::impl_compute (result, x)`. -/
def F.impl_compute (result : vector_t K) (x : vector_t K) : Option (vector_t K) := do
  vector_t.exec (← F.impl_compute_body x) result

/-- Body of the specialisation `F<EigenMatrixSparse>::impl_gradient`; `x` is not read. -/
def F.impl_gradient_sparse_body (_x : vector_t K) : Option (List (SparseStmt Nat K)) := do
  pure [
    .insert 0 (-0.8),
    .insert 2 0.2]

/-- `F<EigenMatrixSparse>::impl_gradient (grad, _, _)`; the third argument is unused. -/
def F.impl_gradient_sparse (grad : SparseVector K) (x : vector_t K) (_functionId : Nat) :
    Option (SparseVector K) := do
  SparseVector.exec (← F.impl_gradient_sparse_body x) grad

/-- Body of the generic (dense) `F<T>::impl_gradient`; `x` is not read. -/
def F.impl_gradient_body (_x : vector_t K) : Option (List (DenseStmt Nat K)) := do
  pure [
    .setZero,
    .assign 0 (-0.8),
    .assign 2 0.2]

/-- `F<T>::impl_gradient (grad, _, _)`, dense; the third argument is unused. -/
def F.impl_gradient (grad : vector_t K) (x : vector_t K) (_functionId : Nat) :
    Option (vector_t K) := do
  vector_t.exec (← F.impl_gradient_body x) grad

/-- Input size declared by `G::G ()`. -/
def G.inputSize : Nat := 3

/-- Output size declared by `G::G ()`. -/
def G.outputSize : Nat := 2

/-- Body of `G<T>::impl_compute`; `exp` stands for `std::exp`. -/
def G.impl_compute_body (exp : K → K) (x : vector_t K) :
    Option (List (DenseStmt Nat K)) := do
  pure [
    .assign 0 ((← x[1]?) - exp (← x[0]?)),
    .assign 1 ((← x[2]?) - exp (← x[1]?))]

/-- `G<T>::impl_compute (result, x)`. -/
def G.impl_compute (exp : K → K) (result : vector_t K) (x : vector_t K) :
    Option (vector_t K) := do
  vector_t.exec (← G.impl_compute_body exp x) result

/-- `G<T>::impl_gradient (_, _, _)`: the body is empty, the buffer is left as it is. -/
def G.impl_gradient (grad : vector_t K) (_x : vector_t K) (_functionId : Nat) :
    Option (vector_t K) :=
  some grad

/-- Body of the specialisation `G<EigenMatrixSparse>::impl_jacobian`. -/
def G.impl_jacobian_sparse_body (exp : K → K) (x : vector_t K) :
    Option (List (SparseStmt (Nat × Nat) K)) := do
  pure [
    .insert (0, 0) (-exp (← x[0]?)),
    .insert (0, 1) 1,
    .insert (1, 1) (-exp (← x[1]?)),
    .insert (1, 2) 1]

/-- `G<EigenMatrixSparse>::impl_jacobian (jac, x)`. -/
def G.impl_jacobian_sparse (exp : K → K) (jac : SparseMatrix K) (x : vector_t K) :
    Option (SparseMatrix K) := do
  SparseMatrix.exec (← G.impl_jacobian_sparse_body exp x) jac

/-- Body of the generic (dense) `G<T>::impl_jacobian`. -/
def G.impl_jacobian_body (exp : K → K) (x : vector_t K) :
    Option (List (DenseStmt (Nat × Nat) K)) := do
  pure [
    .setZero,
    .assign (0, 0) (-exp (← x[0]?)),
    .assign (0, 1) 1,
    .assign (1, 1) (-exp (← x[1]?)),
    .assign (1, 2) 1]

/-- `G<T>::impl_jacobian (jac, x)`, dense. -/
def G.impl_jacobian (exp : K → K) (jac : matrix_t K) (x : vector_t K) :
    Option (matrix_t K) := do
  matrix_t.exec (← G.impl_jacobian_body exp x) jac

/-- Tolerance `f0_tol` of the test case. -/
def f0_tol : K := 1e-4

/-- Tolerance `x_tol` of the test case. -/
def x_tol : K := 1e-4

/-- Tolerance `f_tol` of the test case. -/
def f_tol : K := 1e-4

/-- Variable bounds of `schittkowski_problem66`: the default (unbounded) bounds of a
problem over `F`, then the three assignments to `problem.argumentBounds ()[i]`. -/
def argumentBounds : List (interval_t K) :=
  (((List.replicate F.inputSize makeInfiniteInterval).set 0 (makeInterval 0 100)).set 1
    (makeInterval 0 100)).set 2 (makeInterval 0 10)

/-- Intervals passed to `addConstraint` by `schittkowski_problem66`. -/
def intervals : List (interval_t K) :=
  ([] ++ [makeLowerInterval 0]) ++ [makeLowerInterval 0]

/-- Scales passed to `addConstraint` by `schittkowski_problem66`. -/
def scales : List K := List.replicate G.outputSize 1

/-- Starting point of `schittkowski_problem66`: `x << 0, 1.05, 2.9`. -/
def startingPoint : vector_t K := [0, 1.05, 2.9]

end Code

/-- Feasible set of the problem assembled by `schittkowski_problem66`: every variable lies
in its bound interval and every constraint output lies in its constraint interval. -/
def feasible {K : Type} [LinearOrderedField K] (exp : K → K) (x : vector_t K) : Prop :=
  List.Forall₂ interval_t.contains argumentBounds x ∧
  ∃ g : vector_t K,
    G.impl_compute exp (vector_t.zero G.outputSize) x = some g ∧
    List.Forall₂ interval_t.contains intervals g

end problem66

end schittkowski

end roboptim

/-! ## Evaluation of the embedded bodies -/

namespace roboptim

namespace schittkowski

section Eval

variable {K : Type} [Field K]

theorem problem48_F_impl_compute_eq (r x0 x1 x2 x3 x4 : K) :
    problem48.F.impl_compute [r] [x0, x1, x2, x3, x4]
      = some [(x0 - 1) ^ 2 + (x1 - x2) ^ 2 + (x3 - x4) ^ 2] := by
  simp [problem48.F.impl_compute, problem48.F.impl_compute_body, vector_t.exec, vector_t.step]

theorem problem48_F_impl_gradient_body_eq (x0 x1 x2 x3 x4 : K) :
    problem48.F.impl_gradient_body [x0, x1, x2, x3, x4]
      = some [.assign 0 (2 * (x0 - 1)), .assign 1 (2 * (x1 - x2)), .assign 2 (2 * (-x1 + x2)),
          .assign 3 (2 * (x3 - x4)), .assign 4 (2 * (-x3 + x4))] := by
  simp [problem48.F.impl_gradient_body]

theorem problem48_F_impl_gradient_eq (g0 g1 g2 g3 g4 x0 x1 x2 x3 x4 : K) (k : Nat) :
    problem48.F.impl_gradient [g0, g1, g2, g3, g4] [x0, x1, x2, x3, x4] k
      = some [2 * (x0 - 1), 2 * (x1 - x2), 2 * (-x1 + x2), 2 * (x3 - x4), 2 * (-x3 + x4)] := by
  simp [problem48.F.impl_gradient, problem48.F.impl_gradient_body, vector_t.exec, vector_t.step]

theorem problem48_F_impl_gradient_sparse_body_eq (x0 x1 x2 x3 x4 : K) :
    problem48.F.impl_gradient_sparse_body [x0, x1, x2, x3, x4]
      = some [.insert 0 (2 * (x0 - 1)), .insert 1 (2 * (x1 - x2)), .insert 2 (2 * (-x1 + x2)),
          .insert 3 (2 * (x3 - x4)), .insert 4 (2 * (-x3 + x4))] := by
  simp [problem48.F.impl_gradient_sparse_body]

theorem problem48_F_impl_gradient_sparse_eq (x0 x1 x2 x3 x4 : K) (k : Nat) :
    problem48.F.impl_gradient_sparse (SparseVector.empty 5) [x0, x1, x2, x3, x4] k
      = some ⟨5, [(0, 2 * (x0 - 1)), (1, 2 * (x1 - x2)), (2, 2 * (-x1 + x2)),
          (3, 2 * (x3 - x4)), (4, 2 * (-x3 + x4))]⟩ := by
  simp [problem48.F.impl_gradient_sparse, problem48.F.impl_gradient_sparse_body,
    SparseVector.exec, SparseVector.step, SparseVector.empty]

theorem problem48_G_impl_compute_eq (r0 r1 x0 x1 x2 x3 x4 : K) :
    problem48.G.impl_compute [r0, r1] [x0, x1, x2, x3, x4]
      = some [x0 + x1 + x2 + x3 + x4, x2 - 2 * (x3 + x4)] := by
  simp [problem48.G.impl_compute, problem48.G.impl_compute_body, vector_t.exec, vector_t.step]

theorem problem48_G_impl_jacobian_eq (a0 a1 a2 a3 a4 b0 b1 b2 b3 b4 : K) (x : vector_t K) :
    problem48.G.impl_jacobian [[a0, a1, a2, a3, a4], [b0, b1, b2, b3, b4]] x
      = some [[1, 1, 1, 1, 1], [0, 0, 1, -2, -2]] := by
  simp [problem48.G.impl_jacobian, problem48.G.impl_jacobian_body, matrix_t.exec, matrix_t.step]

theorem problem48_G_impl_jacobian_sparse_eq (x : vector_t K) :
    problem48.G.impl_jacobian_sparse (SparseMatrix.empty 2 5) x
      = some ⟨2, 5, [((0, 0), 1), ((0, 1), 1), ((0, 2), 1), ((0, 3), 1), ((0, 4), 1),
          ((1, 2), 1), ((1, 3), -2), ((1, 4), -2)]⟩ := by
  simp [problem48.G.impl_jacobian_sparse, problem48.G.impl_jacobian_sparse_body,
    SparseMatrix.exec, SparseMatrix.step, SparseMatrix.empty, -Prod.mk_zero_zero,
    -Prod.mk_one_one]

theorem problem66_F_impl_compute_eq (r x0 x1 x2 : K) :
    problem66.F.impl_compute [r] [x0, x1, x2] = some [0.2 * x2 - 0.8 * x0] := by
  simp [problem66.F.impl_compute, problem66.F.impl_compute_body, vector_t.exec, vector_t.step]

theorem problem66_F_impl_gradient_eq (g0 g1 g2 : K) (x : vector_t K) (k : Nat) :
    problem66.F.impl_gradient [g0, g1, g2] x k = some [-0.8, 0, 0.2] := by
  simp [problem66.F.impl_gradient, problem66.F.impl_gradient_body, vector_t.exec, vector_t.step]

theorem problem66_F_impl_gradient_sparse_eq (x : vector_t K) (k : Nat) :
    problem66.F.impl_gradient_sparse (SparseVector.empty 3) x k
      = some ⟨3, [(0, -0.8), (2, 0.2)]⟩ := by
  simp [problem66.F.impl_gradient_sparse, problem66.F.impl_gradient_sparse_body,
    SparseVector.exec, SparseVector.step, SparseVector.empty]

theorem problem66_G_impl_compute_eq (exp : K → K) (r0 r1 x0 x1 x2 : K) :
    problem66.G.impl_compute exp [r0, r1] [x0, x1, x2] = some [x1 - exp x0, x2 - exp x1] := by
  simp [problem66.G.impl_compute, problem66.G.impl_compute_body, vector_t.exec, vector_t.step]

theorem problem66_G_impl_jacobian_body_eq (exp : K → K) (x0 x1 x2 : K) :
    problem66.G.impl_jacobian_body exp [x0, x1, x2]
      = some [.setZero, .assign (0, 0) (-exp x0), .assign (0, 1) 1, .assign (1, 1) (-exp x1),
          .assign (1, 2) 1] := by
  simp [problem66.G.impl_jacobian_body]

theorem problem66_G_impl_jacobian_eq (exp : K → K) (a0 a1 a2 b0 b1 b2 x0 x1 x2 : K) :
    problem66.G.impl_jacobian exp [[a0, a1, a2], [b0, b1, b2]] [x0, x1, x2]
      = some [[-exp x0, 1, 0], [0, -exp x1, 1]] := by
  simp [problem66.G.impl_jacobian, problem66.G.impl_jacobian_body, matrix_t.exec,
    matrix_t.step]
  rfl

theorem problem66_G_impl_jacobian_sparse_body_eq (exp : K → K) (x0 x1 x2 : K) :
    problem66.G.impl_jacobian_sparse_body exp [x0, x1, x2]
      = some [.insert (0, 0) (-exp x0), .insert (0, 1) 1, .insert (1, 1) (-exp x1),
          .insert (1, 2) 1] := by
  simp [problem66.G.impl_jacobian_sparse_body]

theorem problem66_G_impl_jacobian_sparse_eq (exp : K → K) (x0 x1 x2 : K) :
    problem66.G.impl_jacobian_sparse exp (SparseMatrix.empty 2 3) [x0, x1, x2]
      = some ⟨2, 3, [((0, 0), -exp x0), ((0, 1), 1), ((1, 1), -exp x1), ((1, 2), 1)]⟩ := by
  simp [problem66.G.impl_jacobian_sparse, problem66.G.impl_jacobian_sparse_body,
    SparseMatrix.exec, SparseMatrix.step, SparseMatrix.empty, -Prod.mk_zero_zero,
    -Prod.mk_one_one]

end Eval

/-! ## Intervals -/

theorem interval_contains_makeInterval {K : Type} [LinearOrderedField K] (l u v : K) :
    (makeInterval l u).contains v ↔ l ≤ v ∧ v ≤ u := by
  simp [interval_t.contains, makeInterval]

theorem interval_contains_makeLowerInterval {K : Type} [LinearOrderedField K] (l v : K) :
    (makeLowerInterval l).contains v ↔ l ≤ v := by
  simp [interval_t.contains, makeLowerInterval]

/-- The feasible set of problem 66, written out. -/
theorem problem66_feasible_iff (x0 x1 x2 : ℝ) :
    problem66.feasible Real.exp [x0, x1, x2] ↔
      (0 ≤ x0 ∧ x0 ≤ 100) ∧ (0 ≤ x1 ∧ x1 ≤ 100) ∧ (0 ≤ x2 ∧ x2 ≤ 10) ∧
      0 ≤ x1 - Real.exp x0 ∧ 0 ≤ x2 - Real.exp x1 := by
  simp only [problem66.feasible, problem66.argumentBounds, problem66.intervals,
    problem66.F.inputSize, problem66.G.outputSize, vector_t.zero, List.replicate,
    List.set, List.nil_append, List.cons_append, problem66_G_impl_compute_eq,
    Option.some.injEq, exists_eq_left', List.forall₂_cons, List.forall₂_nil_left_iff,
    interval_contains_makeInterval, interval_contains_makeLowerInterval, and_true]
  tauto

/-! ## Derivatives of the one-variable sections -/

/-- The function `(s - c)² + k` has derivative `2 (t - c)` at `t`. -/
theorem hasDerivAt_sq_sub (c k t : ℝ) :
    HasDerivAt (fun s : ℝ => (s - c) ^ 2 + k) (2 * (t - c)) t := by
  have h := (((hasDerivAt_id t).sub_const c).pow 2).add_const k
  simpa using h

/-- The function `(c - s)² + k` has derivative `2 (-c + t)` at `t`. -/
theorem hasDerivAt_sq_const_sub (c k t : ℝ) :
    HasDerivAt (fun s : ℝ => (c - s) ^ 2 + k) (2 * (-c + t)) t := by
  have h := (((hasDerivAt_id t).const_sub c).pow 2).add_const k
  convert h using 1
  simp; ring

/-- A function of the form `c * t + k` has derivative `c` everywhere. -/
theorem hasDerivAt_of_affine (f : ℝ → ℝ) (c k x : ℝ) (h : ∀ t, f t = c * t + k) :
    HasDerivAt f c x := by
  have hf : f = fun t => c * t + k := funext h
  rw [hf]
  simpa using ((hasDerivAt_id x).const_mul c).add_const k

/-- A function of the form `c * t + k - exp t` has derivative `c - exp x` at `x`. -/
theorem hasDerivAt_affine_sub_exp (f : ℝ → ℝ) (c k x : ℝ)
    (h : ∀ t, f t = c * t + k - Real.exp t) : HasDerivAt f (c - Real.exp x) x := by
  have hf : f = fun t => c * t + k - Real.exp t := funext h
  rw [hf]
  simpa using (((hasDerivAt_id x).const_mul c).add_const k).sub (Real.hasDerivAt_exp x)

/-! ## Bounds on the exponential -/

theorem exp_lower_a : (601 / 500 : ℝ) ≤ Real.exp (23 / 125) := by
  have h := Real.sum_le_exp_of_nonneg (by norm_num : (0 : ℝ) ≤ 23 / 125) 5
  norm_num [Finset.sum_range_succ, Nat.factorial] at h
  linarith

theorem exp_lower_b : (8321 / 2500 : ℝ) ≤ Real.exp (481 / 400) := by
  have h := Real.sum_le_exp_of_nonneg (by norm_num : (0 : ℝ) ≤ 481 / 400) 10
  norm_num [Finset.sum_range_succ, Nat.factorial] at h
  linarith

/-- Tangent-line bound: `exp c * (1 + (t - c)) ≤ exp t`. -/
theorem exp_tangent_le (c t : ℝ) : Real.exp c * (1 + (t - c)) ≤ Real.exp t := by
  have h1 : t - c + 1 ≤ Real.exp (t - c) := Real.add_one_le_exp (t - c)
  have h2 : Real.exp t = Real.exp c * Real.exp (t - c) := by
    rw [← Real.exp_add]; congr 1; ring
  rw [h2]
  have hc : 0 ≤ Real.exp c := (Real.exp_pos c).le
  nlinarith

/-- On `x0 ≥ 0`, `x1 ≥ exp x0`, `x2 ≥ exp x1` the objective of problem 66 is bounded below:
two tangent lines of `exp`, at `23/125` and at `481/400`, reduce the bound to a linear
inequality in `x0`. -/
theorem objective_lower_bound (x0 x1 x2 : ℝ) (h0 : 0 ≤ x0)
    (hg0 : 0 ≤ x1 - Real.exp x0) (hg1 : 0 ≤ x2 - Real.exp x1) :
    (0.5181632741 : ℝ) - 0.0001 ≤ 0.2 * x2 - 0.8 * x0 := by
  have ha := exp_lower_a
  have hb := exp_lower_b
  have t0 := exp_tangent_le (23 / 125) x0
  have t1 := exp_tangent_le (481 / 400) x1
  have s0 : (601 / 500 : ℝ) * (1 + (x0 - 23 / 125)) ≤ x1 := by
    have : (601 / 500 : ℝ) * (1 + (x0 - 23 / 125))
        ≤ Real.exp (23 / 125) * (1 + (x0 - 23 / 125)) :=
      mul_le_mul_of_nonneg_right ha (by linarith)
    linarith
  have s1 : (8321 / 2500 : ℝ) * (1 + (x1 - 481 / 400)) ≤ x2 := by
    have : (8321 / 2500 : ℝ) * (1 + (x1 - 481 / 400))
        ≤ Real.exp (481 / 400) * (1 + (x1 - 481 / 400)) :=
      mul_le_mul_of_nonneg_right hb (by linarith)
    linarith
  norm_num at s0 s1 ⊢
  linarith

/-- Bounds on `exp` at the first tabulated coordinate of problem 66. -/
theorem exp_x0_bounds :
    (1.202167873 : ℝ) - 1e-4 ≤ Real.exp 0.1841264879 ∧
      Real.exp 0.1841264879 ≤ 1.202167873 + 1e-4 := by
  constructor
  · have h := Real.sum_le_exp_of_nonneg (by norm_num : (0 : ℝ) ≤ 1841 / 10000) 5
    have m : Real.exp (1841 / 10000) ≤ Real.exp 0.1841264879 :=
      Real.exp_le_exp.2 (by norm_num)
    norm_num [Finset.sum_range_succ, Nat.factorial] at h ⊢
    linarith
  · have h := Real.exp_bound' (by norm_num : (0 : ℝ) ≤ 1842 / 10000) (by norm_num)
      (by norm_num : 0 < 5)
    have m : Real.exp 0.1841264879 ≤ Real.exp (1842 / 10000) :=
      Real.exp_le_exp.2 (by norm_num)
    norm_num [Finset.sum_range_succ, Nat.factorial] at h ⊢
    linarith

/-- Bounds on `exp` at the second tabulated coordinate of problem 66. -/
theorem exp_x1_bounds :
    (3.327322322 : ℝ) - 1e-4 ≤ Real.exp 1.202167873 ∧
      Real.exp 1.202167873 ≤ 3.327322322 + 1e-4 := by
  constructor
  · have h := Real.sum_le_exp_of_nonneg (by norm_num : (0 : ℝ) ≤ 120216 / 100000) 10
    have m : Real.exp (120216 / 100000) ≤ Real.exp 1.202167873 :=
      Real.exp_le_exp.2 (by norm_num)
    norm_num [Finset.sum_range_succ, Nat.factorial] at h ⊢
    linarith
  · have h := Real.exp_bound' (by norm_num : (0 : ℝ) ≤ 120217 / 200000) (by norm_num)
      (by norm_num : 0 < 7)
    have m : Real.exp 1.202167873 ≤ Real.exp (120217 / 200000 + 120217 / 200000) :=
      Real.exp_le_exp.2 (by norm_num)
    rw [Real.exp_add] at m
    have p : 0 < Real.exp (120217 / 200000) := Real.exp_pos _
    norm_num [Finset.sum_range_succ, Nat.factorial] at h ⊢
    nlinarith

/-- In problem 48, a point on the constraint set with objective value at most `0` is the
tabulated optimum. -/
theorem problem48_zero_on_constraint (x0 x1 x2 x3 x4 : ℝ)
    (h1 : x0 + x1 + x2 + x3 + x4 = 5) (h2 : x2 - 2 * (x3 + x4) = -3)
    (h3 : (x0 - 1) ^ 2 + (x1 - x2) ^ 2 + (x3 - x4) ^ 2 ≤ 0) :
    [x0, x1, x2, x3, x4] = [1, 1, 1, 1, 1] := by
  have e0 : x0 - 1 = 0 := by
    nlinarith [sq_nonneg (x0 - 1), sq_nonneg (x1 - x2), sq_nonneg (x3 - x4)]
  have e1 : x1 - x2 = 0 := by
    nlinarith [sq_nonneg (x0 - 1), sq_nonneg (x1 - x2), sq_nonneg (x3 - x4)]
  have e2 : x3 - x4 = 0 := by
    nlinarith [sq_nonneg (x0 - 1), sq_nonneg (x1 - x2), sq_nonneg (x3 - x4)]
  have a0 : x0 = 1 := by linarith
  have a3 : x3 = 1 := by linarith
  have a4 : x4 = 1 := by linarith
  have a1 : x1 = 1 := by linarith
  have a2 : x2 = 1 := by linarith
  simp [a0, a1, a2, a3, a4]

/-! ## Claims -/

/-- C1: problem 48 objective.  For every `x` in `R^5` and every content of the buffers,
the dense `F::impl_gradient` writes `[2(x0-1), 2(x1-x2), 2(-x1+x2), 2(x3-x4), 2(-x3+x4)]`,
this vector equals the formula `[2(x0-1), 2(x1-x2), -2(x1-x2), 2(x3-x4), -2(x3-x4)]`, and
for every `j` its component `j` is the derivative at `x_j` of the value `F::impl_compute`
writes to `result[0]`, seen as a function of the `j`-th coordinate alone. -/
theorem problem48_F_gradient_is_derivative (g0 g1 g2 g3 g4 r x0 x1 x2 x3 x4 : ℝ)
    (k : Nat) :
    ∃ grad : vector_t ℝ,
      problem48.F.impl_gradient [g0, g1, g2, g3, g4] [x0, x1, x2, x3, x4] k = some grad ∧
      grad = [2 * (x0 - 1), 2 * (x1 - x2), 2 * (-x1 + x2), 2 * (x3 - x4), 2 * (-x3 + x4)] ∧
      grad = [2 * (x0 - 1), 2 * (x1 - x2), -2 * (x1 - x2), 2 * (x3 - x4), -2 * (x3 - x4)] ∧
      ∀ j : Fin 5, ∃ f : ℝ → ℝ,
        (∀ t : ℝ, problem48.F.impl_compute [r] ([x0, x1, x2, x3, x4].set j t) = some [f t]) ∧
        HasDerivAt f (grad.getD j 0) ([x0, x1, x2, x3, x4].getD j 0) := by
  refine ⟨_, problem48_F_impl_gradient_eq _ _ _ _ _ _ _ _ _ _ _, rfl, ?_, ?_⟩
  · simp; constructor <;> ring
  · intro j
    fin_cases j
    · refine ⟨fun t => (t - 1) ^ 2 + (x1 - x2) ^ 2 + (x3 - x4) ^ 2, fun t => ?_, ?_⟩
      · simpa using problem48_F_impl_compute_eq r t x1 x2 x3 x4
      · have h := hasDerivAt_sq_sub 1 ((x1 - x2) ^ 2 + (x3 - x4) ^ 2) x0
        simpa [add_assoc] using h
    · refine ⟨fun t => (x0 - 1) ^ 2 + (t - x2) ^ 2 + (x3 - x4) ^ 2, fun t => ?_, ?_⟩
      · simpa using problem48_F_impl_compute_eq r x0 t x2 x3 x4
      · have h := hasDerivAt_sq_sub x2 ((x0 - 1) ^ 2 + (x3 - x4) ^ 2) x1
        convert h using 1
        funext s; ring
    · refine ⟨fun t => (x0 - 1) ^ 2 + (x1 - t) ^ 2 + (x3 - x4) ^ 2, fun t => ?_, ?_⟩
      · simpa using problem48_F_impl_compute_eq r x0 x1 t x3 x4
      · have h := hasDerivAt_sq_const_sub x1 ((x0 - 1) ^ 2 + (x3 - x4) ^ 2) x2
        convert h using 1
        funext s; ring
    · refine ⟨fun t => (x0 - 1) ^ 2 + (x1 - x2) ^ 2 + (t - x4) ^ 2, fun t => ?_, ?_⟩
      · simpa using problem48_F_impl_compute_eq r x0 x1 x2 t x4
      · have h := hasDerivAt_sq_sub x4 ((x0 - 1) ^ 2 + (x1 - x2) ^ 2) x3
        convert h using 1
        funext s; ring
    · refine ⟨fun t => (x0 - 1) ^ 2 + (x1 - x2) ^ 2 + (x3 - t) ^ 2, fun t => ?_, ?_⟩
      · simpa using problem48_F_impl_compute_eq r x0 x1 x2 x3 t
      · have h := hasDerivAt_sq_const_sub x3 ((x0 - 1) ^ 2 + (x1 - x2) ^ 2) x4
        convert h using 1
        funext s; ring

/-- C2: problem 48 constraint.  For every `x` in `R^5` and every content of the buffers,
the dense `G::impl_jacobian` produces the matrix with rows `[1,1,1,1,1]` and
`[0,0,1,-2,-2]`, and its entry `(i,j)` is the derivative at `x_j` of output `i` of
`G::impl_compute`, seen as a function of the `j`-th coordinate alone. -/
theorem problem48_G_jacobian_is_derivative
    (a0 a1 a2 a3 a4 b0 b1 b2 b3 b4 r0 r1 x0 x1 x2 x3 x4 : ℝ) :
    ∃ jac : matrix_t ℝ,
      problem48.G.impl_jacobian [[a0, a1, a2, a3, a4], [b0, b1, b2, b3, b4]]
        [x0, x1, x2, x3, x4] = some jac ∧
      jac = [[1, 1, 1, 1, 1], [0, 0, 1, -2, -2]] ∧
      ∀ (i : Fin 2) (j : Fin 5), ∃ f : ℝ → ℝ,
        (∀ t : ℝ, ∃ result : vector_t ℝ,
          problem48.G.impl_compute [r0, r1] ([x0, x1, x2, x3, x4].set j t) = some result ∧
          result.getD i 0 = f t) ∧
        HasDerivAt f ((jac.getD i []).getD j 0) ([x0, x1, x2, x3, x4].getD j 0) := by
  refine ⟨_, problem48_G_impl_jacobian_eq _ _ _ _ _ _ _ _ _ _ _, rfl, ?_⟩
  intro i j
  fin_cases i <;> fin_cases j
  · exact ⟨_, fun t => ⟨_, problem48_G_impl_compute_eq r0 r1 t x1 x2 x3 x4, rfl⟩,
      hasDerivAt_of_affine _ 1 (x1 + x2 + x3 + x4) _ (fun t => by simp; ring)⟩
  · exact ⟨_, fun t => ⟨_, problem48_G_impl_compute_eq r0 r1 x0 t x2 x3 x4, rfl⟩,
      hasDerivAt_of_affine _ 1 (x0 + x2 + x3 + x4) _ (fun t => by simp; ring)⟩
  · exact ⟨_, fun t => ⟨_, problem48_G_impl_compute_eq r0 r1 x0 x1 t x3 x4, rfl⟩,
      hasDerivAt_of_affine _ 1 (x0 + x1 + x3 + x4) _ (fun t => by simp; ring)⟩
  · exact ⟨_, fun t => ⟨_, problem48_G_impl_compute_eq r0 r1 x0 x1 x2 t x4, rfl⟩,
      hasDerivAt_of_affine _ 1 (x0 + x1 + x2 + x4) _ (fun t => by simp; ring)⟩
  · exact ⟨_, fun t => ⟨_, problem48_G_impl_compute_eq r0 r1 x0 x1 x2 x3 t, rfl⟩,
      hasDerivAt_of_affine _ 1 (x0 + x1 + x2 + x3) _ (fun t => by simp; ring)⟩
  · exact ⟨_, fun t => ⟨_, problem48_G_impl_compute_eq r0 r1 t x1 x2 x3 x4, rfl⟩,
      hasDerivAt_of_affine _ 0 (x2 - 2 * (x3 + x4)) _ (fun t => by simp)⟩
  · exact ⟨_, fun t => ⟨_, problem48_G_impl_compute_eq r0 r1 x0 t x2 x3 x4, rfl⟩,
      hasDerivAt_of_affine _ 0 (x2 - 2 * (x3 + x4)) _ (fun t => by simp)⟩
  · exact ⟨_, fun t => ⟨_, problem48_G_impl_compute_eq r0 r1 x0 x1 t x3 x4, rfl⟩,
      hasDerivAt_of_affine _ 1 (-(2 * (x3 + x4))) _ (fun t => by simp; ring)⟩
  · exact ⟨_, fun t => ⟨_, problem48_G_impl_compute_eq r0 r1 x0 x1 x2 t x4, rfl⟩,
      hasDerivAt_of_affine _ (-2) (x2 - 2 * x4) _ (fun t => by simp; ring)⟩
  · exact ⟨_, fun t => ⟨_, problem48_G_impl_compute_eq r0 r1 x0 x1 x2 x3 t, rfl⟩,
      hasDerivAt_of_affine _ (-2) (x2 - 2 * x3) _ (fun t => by simp; ring)⟩

/-- C3: problem 66 constraint.  For every `x` in `R^3` and every content of the buffers,
the dense `G::impl_jacobian` produces `[[-exp(x0), 1, 0], [0, -exp(x1), 1]]`, and its
entry `(i,j)` is the derivative at `x_j` of output `i` of `G::impl_compute`, seen as a
function of the `j`-th coordinate alone. -/
theorem problem66_G_jacobian_is_derivative (a0 a1 a2 b0 b1 b2 r0 r1 x0 x1 x2 : ℝ) :
    ∃ jac : matrix_t ℝ,
      problem66.G.impl_jacobian Real.exp [[a0, a1, a2], [b0, b1, b2]] [x0, x1, x2]
        = some jac ∧
      jac = [[-Real.exp x0, 1, 0], [0, -Real.exp x1, 1]] ∧
      ∀ (i : Fin 2) (j : Fin 3), ∃ f : ℝ → ℝ,
        (∀ t : ℝ, ∃ result : vector_t ℝ,
          problem66.G.impl_compute Real.exp [r0, r1] ([x0, x1, x2].set j t) = some result ∧
          result.getD i 0 = f t) ∧
        HasDerivAt f ((jac.getD i []).getD j 0) ([x0, x1, x2].getD j 0) := by
  refine ⟨_, problem66_G_impl_jacobian_eq _ _ _ _ _ _ _ _ _ _, rfl, ?_⟩
  intro i j
  fin_cases i <;> fin_cases j
  · refine ⟨_, fun t => ⟨_, problem66_G_impl_compute_eq Real.exp r0 r1 t x1 x2, rfl⟩, ?_⟩
    have h := hasDerivAt_affine_sub_exp (fun t => x1 - Real.exp t) 0 x1 x0 (fun t => by simp)
    simpa using h
  · exact ⟨_, fun t => ⟨_, problem66_G_impl_compute_eq Real.exp r0 r1 x0 t x2, rfl⟩,
      hasDerivAt_of_affine _ 1 (-Real.exp x0) _ (fun t => by simp; ring)⟩
  · exact ⟨_, fun t => ⟨_, problem66_G_impl_compute_eq Real.exp r0 r1 x0 x1 t, rfl⟩,
      hasDerivAt_of_affine _ 0 (x1 - Real.exp x0) _ (fun t => by simp)⟩
  · exact ⟨_, fun t => ⟨_, problem66_G_impl_compute_eq Real.exp r0 r1 t x1 x2, rfl⟩,
      hasDerivAt_of_affine _ 0 (x2 - Real.exp x1) _ (fun t => by simp)⟩
  · refine ⟨_, fun t => ⟨_, problem66_G_impl_compute_eq Real.exp r0 r1 x0 t x2, rfl⟩, ?_⟩
    have h := hasDerivAt_affine_sub_exp (fun t => x2 - Real.exp t) 0 x2 x1 (fun t => by simp)
    simpa using h
  · exact ⟨_, fun t => ⟨_, problem66_G_impl_compute_eq Real.exp r0 r1 x0 x1 t, rfl⟩,
      hasDerivAt_of_affine _ 1 (-Real.exp x1) _ (fun t => by simp; ring)⟩

/-- C4: problem 66 objective.  For every `x` in `R^3` and every content of the buffers,
the dense `F::impl_gradient` produces the constant `[-0.8, 0, 0.2]`, `F::impl_compute`
writes `0.2*x2 - 0.8*x0`, and component `j` of the gradient is the derivative at `x_j` of
that value, seen as a function of the `j`-th coordinate alone. -/
theorem problem66_F_gradient_is_derivative (g0 g1 g2 r x0 x1 x2 : ℝ) (k : Nat) :
    ∃ grad : vector_t ℝ,
      problem66.F.impl_gradient [g0, g1, g2] [x0, x1, x2] k = some grad ∧
      grad = [-0.8, 0, 0.2] ∧
      (∃ result : vector_t ℝ,
        problem66.F.impl_compute [r] [x0, x1, x2] = some result ∧
        result = [0.2 * x2 - 0.8 * x0]) ∧
      ∀ j : Fin 3, ∃ f : ℝ → ℝ,
        (∀ t : ℝ, problem66.F.impl_compute [r] ([x0, x1, x2].set j t) = some [f t]) ∧
        HasDerivAt f (grad.getD j 0) ([x0, x1, x2].getD j 0) := by
  refine ⟨_, problem66_F_impl_gradient_eq _ _ _ _ _, rfl,
    ⟨_, problem66_F_impl_compute_eq _ _ _ _, rfl⟩, ?_⟩
  intro j
  fin_cases j
  · exact ⟨_, fun t => problem66_F_impl_compute_eq r t x1 x2,
      hasDerivAt_of_affine _ (-0.8) (0.2 * x2) _ (fun t => by ring)⟩
  · exact ⟨_, fun t => problem66_F_impl_compute_eq r x0 t x2,
      hasDerivAt_of_affine _ 0 (0.2 * x2 - 0.8 * x0) _ (fun t => by ring)⟩
  · exact ⟨_, fun t => problem66_F_impl_compute_eq r x0 x1 t,
      hasDerivAt_of_affine _ 0.2 (-(0.8 * x0)) _ (fun t => by ring)⟩

/-- C5: problem 48 backend equivalence.  For every `x` in `R^5`, the sparse gradient of
`F` (started from an empty sparse vector of the declared size) read with unset entries
`0` is the dense gradient (5 entries), and the sparse Jacobian of `G` read with unset
entries `0` is the dense Jacobian (2x5); the positions the sparse bodies insert are the
positions the dense bodies assign, for `G` these are `(0,0..4)`, `(1,2)`, `(1,3)`, `(1,4)`,
while `(1,0)` and `(1,1)` are not inserted and are `0` in the dense result. -/
theorem problem48_sparse_dense_agree
    (g0 g1 g2 g3 g4 a0 a1 a2 a3 a4 b0 b1 b2 b3 b4 x0 x1 x2 x3 x4 : ℝ) (k : Nat) :
    (∃ (sgrad : SparseVector ℝ) (grad : vector_t ℝ)
        (sbody : List (SparseStmt Nat ℝ)) (body : List (DenseStmt Nat ℝ)),
      problem48.F.impl_gradient_sparse (SparseVector.empty problem48.F.inputSize)
        [x0, x1, x2, x3, x4] k = some sgrad ∧
      problem48.F.impl_gradient [g0, g1, g2, g3, g4] [x0, x1, x2, x3, x4] k = some grad ∧
      sgrad.toDense = grad ∧
      grad.length = 5 ∧
      problem48.F.impl_gradient_sparse_body [x0, x1, x2, x3, x4] = some sbody ∧
      problem48.F.impl_gradient_body [x0, x1, x2, x3, x4] = some body ∧
      SparseStmt.inserted sbody = DenseStmt.assigned body ∧
      sgrad.entries.map Prod.fst = SparseStmt.inserted sbody) ∧
    (∃ (sjac : SparseMatrix ℝ) (jac : matrix_t ℝ)
        (sbody : List (SparseStmt (Nat × Nat) ℝ)) (body : List (DenseStmt (Nat × Nat) ℝ)),
      problem48.G.impl_jacobian_sparse
        (SparseMatrix.empty problem48.G.outputSize problem48.G.inputSize)
        [x0, x1, x2, x3, x4] = some sjac ∧
      problem48.G.impl_jacobian [[a0, a1, a2, a3, a4], [b0, b1, b2, b3, b4]]
        [x0, x1, x2, x3, x4] = some jac ∧
      sjac.toDense = jac ∧
      jac.map List.length = [5, 5] ∧
      problem48.G.impl_jacobian_sparse_body [x0, x1, x2, x3, x4] = some sbody ∧
      problem48.G.impl_jacobian_body [x0, x1, x2, x3, x4] = some body ∧
      SparseStmt.inserted sbody = DenseStmt.assigned body ∧
      sjac.entries.map Prod.fst = SparseStmt.inserted sbody ∧
      SparseStmt.inserted sbody
        = [(0, 0), (0, 1), (0, 2), (0, 3), (0, 4), (1, 2), (1, 3), (1, 4)] ∧
      (1, 0) ∉ SparseStmt.inserted sbody ∧ (1, 1) ∉ SparseStmt.inserted sbody ∧
      (jac.getD 1 []).getD 0 1 = 0 ∧ (jac.getD 1 []).getD 1 1 = 0) := by
  constructor
  · refine ⟨_, _, _, _, problem48_F_impl_gradient_sparse_eq x0 x1 x2 x3 x4 k,
      problem48_F_impl_gradient_eq g0 g1 g2 g3 g4 x0 x1 x2 x3 x4 k, ?_, rfl,
      problem48_F_impl_gradient_sparse_body_eq x0 x1 x2 x3 x4,
      problem48_F_impl_gradient_body_eq x0 x1 x2 x3 x4, ?_, ?_⟩
    · simp [SparseVector.toDense, SparseVector.coeff, List.range, List.range.loop]
    · simp [SparseStmt.inserted, DenseStmt.assigned]
    · simp [SparseStmt.inserted]
  · refine ⟨_, _, _, _, problem48_G_impl_jacobian_sparse_eq _,
      problem48_G_impl_jacobian_eq a0 a1 a2 a3 a4 b0 b1 b2 b3 b4 _, ?_, rfl, rfl, rfl,
      ?_, ?_, ?_, ?_, ?_, ?_, ?_⟩
    · simp [SparseMatrix.toDense, SparseMatrix.coeff, List.range, List.range.loop,
        -Prod.mk_zero_zero, -Prod.mk_one_one]
    · simp [SparseStmt.inserted, DenseStmt.assigned]
    · simp [SparseStmt.inserted]
    · simp [SparseStmt.inserted]
    · simp [SparseStmt.inserted, -Prod.mk_zero_zero, -Prod.mk_one_one]
    · simp [SparseStmt.inserted, -Prod.mk_zero_zero, -Prod.mk_one_one]
    · simp
    · simp

/-- C6: problem 66 backend equivalence.  For every `x` in `R^3`, the sparse gradient of
`F` read with unset entries `0` is the dense gradient (the sparse body inserts indices
`0` and `2`, dense index `1` is `0`), and the sparse Jacobian of `G` read with unset
entries `0` is the dense Jacobian (the sparse body inserts `(0,0)`, `(0,1)`, `(1,1)`,
`(1,2)`; dense entries `(0,2)` and `(1,0)` are `0`); the positions the sparse bodies
insert are the positions the dense bodies assign after their leading `setZero`. -/
theorem problem66_sparse_dense_agree (g0 g1 g2 a0 a1 a2 b0 b1 b2 x0 x1 x2 : ℝ)
    (k : Nat) :
    (∃ (sgrad : SparseVector ℝ) (grad : vector_t ℝ)
        (sbody : List (SparseStmt Nat ℝ)) (body : List (DenseStmt Nat ℝ)),
      problem66.F.impl_gradient_sparse (SparseVector.empty problem66.F.inputSize)
        [x0, x1, x2] k = some sgrad ∧
      problem66.F.impl_gradient [g0, g1, g2] [x0, x1, x2] k = some grad ∧
      sgrad.toDense = grad ∧
      grad.length = 3 ∧
      problem66.F.impl_gradient_sparse_body [x0, x1, x2] = some sbody ∧
      problem66.F.impl_gradient_body [x0, x1, x2] = some body ∧
      SparseStmt.inserted sbody = DenseStmt.assigned body ∧
      sgrad.entries.map Prod.fst = SparseStmt.inserted sbody ∧
      SparseStmt.inserted sbody = [0, 2] ∧
      body.head? = some .setZero ∧
      grad.getD 1 1 = 0) ∧
    (∃ (sjac : SparseMatrix ℝ) (jac : matrix_t ℝ)
        (sbody : List (SparseStmt (Nat × Nat) ℝ)) (body : List (DenseStmt (Nat × Nat) ℝ)),
      problem66.G.impl_jacobian_sparse Real.exp
        (SparseMatrix.empty problem66.G.outputSize problem66.G.inputSize)
        [x0, x1, x2] = some sjac ∧
      problem66.G.impl_jacobian Real.exp [[a0, a1, a2], [b0, b1, b2]] [x0, x1, x2]
        = some jac ∧
      sjac.toDense = jac ∧
      jac.map List.length = [3, 3] ∧
      problem66.G.impl_jacobian_sparse_body Real.exp [x0, x1, x2] = some sbody ∧
      problem66.G.impl_jacobian_body Real.exp [x0, x1, x2] = some body ∧
      SparseStmt.inserted sbody = DenseStmt.assigned body ∧
      sjac.entries.map Prod.fst = SparseStmt.inserted sbody ∧
      SparseStmt.inserted sbody = [(0, 0), (0, 1), (1, 1), (1, 2)] ∧
      body.head? = some .setZero ∧
      (jac.getD 0 []).getD 2 1 = 0 ∧ (jac.getD 1 []).getD 0 1 = 0) := by
  constructor
  · refine ⟨_, _, _, _, problem66_F_impl_gradient_sparse_eq _ k,
      problem66_F_impl_gradient_eq g0 g1 g2 _ k, ?_, rfl, rfl, rfl, ?_, ?_, ?_, rfl, ?_⟩
    · simp [SparseVector.toDense, SparseVector.coeff, List.range, List.range.loop]
    · simp [SparseStmt.inserted, DenseStmt.assigned]
    · simp [SparseStmt.inserted]
    · simp [SparseStmt.inserted]
    · simp
  · refine ⟨_, _, _, _, problem66_G_impl_jacobian_sparse_eq Real.exp x0 x1 x2,
      problem66_G_impl_jacobian_eq Real.exp a0 a1 a2 b0 b1 b2 x0 x1 x2, ?_, rfl,
      problem66_G_impl_jacobian_sparse_body_eq Real.exp x0 x1 x2,
      problem66_G_impl_jacobian_body_eq Real.exp x0 x1 x2, ?_, ?_, ?_, rfl, ?_, ?_⟩
    · simp [SparseMatrix.toDense, SparseMatrix.coeff, List.range, List.range.loop,
        -Prod.mk_zero_zero, -Prod.mk_one_one]
    · simp [SparseStmt.inserted, DenseStmt.assigned]
    · simp [SparseStmt.inserted]
    · simp [SparseStmt.inserted]
    · simp
    · simp

/-- C7: problem 48 expected optimum.  `F(x) >= 0` for every `x` in `R^5`; the tabulated
point `x* = (1,1,1,1,1)` has `G(x*) = (5,-3)` and `F(x*) = 0 = ExpectedResult::fx`; every
`x` with `G(x) = (5,-3)` and `F(x) = 0` equals `(1,1,1,1,1)`; hence on the feasible set
`G(x) = (5,-3)` the value `F(x)` is at least `F(x*)`, with equality only at `x*`. -/
theorem problem48_expected_optimum (r r0 r1 : ℝ) :
    (∀ x0 x1 x2 x3 x4 : ℝ, ∃ f : ℝ,
      problem48.F.impl_compute [r] [x0, x1, x2, x3, x4] = some [f] ∧ 0 ≤ f) ∧
    problem48.ExpectedResult.x = [(1 : ℝ), 1, 1, 1, 1] ∧
    problem48.G.impl_compute [r0, r1] problem48.ExpectedResult.x = some [(5 : ℝ), -3] ∧
    problem48.F.impl_compute [r] problem48.ExpectedResult.x
      = some [(problem48.ExpectedResult.fx : ℝ)] ∧
    (problem48.ExpectedResult.fx : ℝ) = 0 ∧
    (∀ x0 x1 x2 x3 x4 : ℝ,
      problem48.G.impl_compute [r0, r1] [x0, x1, x2, x3, x4] = some [5, -3] →
      problem48.F.impl_compute [r] [x0, x1, x2, x3, x4] = some [0] →
      [x0, x1, x2, x3, x4] = [1, 1, 1, 1, 1]) ∧
    (∀ x0 x1 x2 x3 x4 f : ℝ,
      problem48.G.impl_compute [r0, r1] [x0, x1, x2, x3, x4] = some [5, -3] →
      problem48.F.impl_compute [r] [x0, x1, x2, x3, x4] = some [f] →
      problem48.ExpectedResult.fx ≤ f ∧
      (f ≤ problem48.ExpectedResult.fx →
        [x0, x1, x2, x3, x4] = problem48.ExpectedResult.x)) := by
  refine ⟨?_, rfl, ?_, ?_, rfl, ?_, ?_⟩
  · intro x0 x1 x2 x3 x4
    exact ⟨_, problem48_F_impl_compute_eq r x0 x1 x2 x3 x4, by positivity⟩
  · rw [problem48.ExpectedResult.x, problem48_G_impl_compute_eq]; norm_num
  · rw [problem48.ExpectedResult.x, problem48_F_impl_compute_eq]
    simp [problem48.ExpectedResult.fx]
  · intro x0 x1 x2 x3 x4 hG hF
    rw [problem48_G_impl_compute_eq] at hG
    rw [problem48_F_impl_compute_eq] at hF
    simp at hG hF
    exact problem48_zero_on_constraint x0 x1 x2 x3 x4 hG.1 hG.2 (le_of_eq hF)
  · intro x0 x1 x2 x3 x4 f hG hF
    rw [problem48_G_impl_compute_eq] at hG
    rw [problem48_F_impl_compute_eq] at hF
    simp at hG hF
    subst hF
    refine ⟨by simp only [problem48.ExpectedResult.fx]; positivity, fun h => ?_⟩
    exact problem48_zero_on_constraint x0 x1 x2 x3 x4 hG.1 hG.2
      (by simpa [problem48.ExpectedResult.fx] using h)

/-- Witness for C7: the premises of the uniqueness part hold at `(1,1,1,1,1)`. -/
theorem problem48_expected_optimum_witness :
    problem48.G.impl_compute [0, 0] [(1 : ℝ), 1, 1, 1, 1] = some [5, -3] ∧
    problem48.F.impl_compute [0] [(1 : ℝ), 1, 1, 1, 1] = some [0] ∧
    [(1 : ℝ), 1, 1, 1, 1] = [1, 1, 1, 1, 1] :=
  have hG : problem48.G.impl_compute [0, 0] [(1 : ℝ), 1, 1, 1, 1] = some [5, -3] := by
    rw [problem48_G_impl_compute_eq]; norm_num
  have hF : problem48.F.impl_compute [0] [(1 : ℝ), 1, 1, 1, 1] = some [0] := by
    rw [problem48_F_impl_compute_eq]; norm_num
  ⟨hG, hF, (problem48_expected_optimum 0 0 0).2.2.2.2.2.1 1 1 1 1 1 hG hF⟩

/-- C8: problem 66 expected optimal value is a lower bound on the feasible set.  For every
real `(x0,x1,x2)` with `0 <= x0 <= 100`, `0 <= x1 <= 100`, `0 <= x2 <= 10`,
`x1 - exp(x0) >= 0` and `x2 - exp(x1) >= 0` (which is the feasible set of the problem the
test assembles), the value `0.2*x2 - 0.8*x0` written by `F::impl_compute` is at least
`ExpectedResult::fx - 1e-4 = 0.5181632741 - 0.0001`. -/
theorem problem66_expected_value_is_lower_bound (r x0 x1 x2 : ℝ)
    (hx0 : 0 ≤ x0 ∧ x0 ≤ 100) (hx1 : 0 ≤ x1 ∧ x1 ≤ 100) (hx2 : 0 ≤ x2 ∧ x2 ≤ 10)
    (hg0 : x1 - Real.exp x0 ≥ 0) (hg1 : x2 - Real.exp x1 ≥ 0) :
    problem66.feasible Real.exp [x0, x1, x2] ∧
    ∃ f : ℝ, problem66.F.impl_compute [r] [x0, x1, x2] = some [f] ∧
      f = 0.2 * x2 - 0.8 * x0 ∧
      f ≥ problem66.ExpectedResult.fx - problem66.f_tol ∧
      (problem66.ExpectedResult.fx - problem66.f_tol : ℝ) = 0.5181632741 - 0.0001 := by
  have e : (problem66.ExpectedResult.fx - problem66.f_tol : ℝ) = 0.5181632741 - 0.0001 := by
    norm_num [problem66.ExpectedResult.fx, problem66.f_tol]
  refine ⟨(problem66_feasible_iff x0 x1 x2).2 ⟨hx0, hx1, hx2, hg0, hg1⟩, _,
    problem66_F_impl_compute_eq r x0 x1 x2, rfl, ?_, e⟩
  rw [ge_iff_le, e]
  exact objective_lower_bound x0 x1 x2 hx0.1 hg0 hg1

/-- Witness for C8: the point `(0, 1, 3)` satisfies every hypothesis. -/
theorem problem66_expected_value_is_lower_bound_witness :
    problem66.feasible Real.exp [(0 : ℝ), 1, 3] ∧
    ∃ f : ℝ, problem66.F.impl_compute [0] [(0 : ℝ), 1, 3] = some [f] ∧
      f = 0.2 * 3 - 0.8 * 0 ∧
      f ≥ problem66.ExpectedResult.fx - problem66.f_tol ∧
      (problem66.ExpectedResult.fx - problem66.f_tol : ℝ) = 0.5181632741 - 0.0001 :=
  problem66_expected_value_is_lower_bound 0 0 1 3 (by norm_num) (by norm_num) (by norm_num)
    (by simp) (by have := Real.exp_one_lt_d9; norm_num at this ⊢; linarith)

/-- C9: problem 66 fixture table.  The tabulated point
`x* = (0.1841264879, 1.202167873, 3.327322322)` lies inside the variable bounds
`[0,100] x [0,100] x [0,10]`, `F(x*) = 0.2*x2* - 0.8*x0*` differs from
`ExpectedResult::fx = 0.5181632741` by at most `1e-4`, and both constraint outputs are
within `1e-4` of `0` there: `|x1* - exp(x0*)| <= 1e-4` and `|x2* - exp(x1*)| <= 1e-4`. -/
theorem problem66_fixture_consistent (r r0 r1 : ℝ) :
    problem66.ExpectedResult.x = [(0.1841264879 : ℝ), 1.202167873, 3.327322322] ∧
    List.Forall₂ interval_t.contains
      [makeInterval (0 : ℝ) 100, makeInterval 0 100, makeInterval 0 10]
      problem66.ExpectedResult.x ∧
    List.Forall₂ interval_t.contains problem66.argumentBounds
      (problem66.ExpectedResult.x : vector_t ℝ) ∧
    (∃ f : ℝ, problem66.F.impl_compute [r] problem66.ExpectedResult.x = some [f] ∧
      f = 0.2 * 3.327322322 - 0.8 * 0.1841264879 ∧
      (problem66.ExpectedResult.fx : ℝ) = 0.5181632741 ∧
      |f - problem66.ExpectedResult.fx| ≤ 1e-4) ∧
    (∃ g0 g1 : ℝ,
      problem66.G.impl_compute Real.exp [r0, r1] problem66.ExpectedResult.x
        = some [g0, g1] ∧
      g0 = 1.202167873 - Real.exp 0.1841264879 ∧
      g1 = 3.327322322 - Real.exp 1.202167873 ∧
      |g0| ≤ 1e-4 ∧ |g1| ≤ 1e-4) := by
  have hb : List.Forall₂ interval_t.contains
      [makeInterval (0 : ℝ) 100, makeInterval 0 100, makeInterval 0 10]
      problem66.ExpectedResult.x := by
    simp only [problem66.ExpectedResult.x, List.forall₂_cons, List.Forall₂.nil,
      interval_contains_makeInterval, and_true]
    norm_num
  refine ⟨rfl, hb, hb, ⟨_, problem66_F_impl_compute_eq _ _ _ _, rfl, rfl, ?_⟩,
    ⟨_, _, problem66_G_impl_compute_eq _ _ _ _ _ _, rfl, rfl, ?_, ?_⟩⟩
  · rw [abs_le]; norm_num [problem66.ExpectedResult.fx]
  · have h := exp_x0_bounds
    rw [abs_le]; constructor <;> linarith [h.1, h.2]
  · have h := exp_x1_bounds
    rw [abs_le]; constructor <;> linarith [h.1, h.2]

/-- C10: problem 48 starting value.  `F::impl_compute` at the starting point
`x = (3, 5, -3, 2, -2)` of the test writes `result[0] = 84`, which is
`ExpectedResult::f0`, hence within the tolerance `f0_tol = 1e-4` of it. -/
theorem problem48_starting_value (r : ℝ) :
    ∃ f : ℝ, problem48.F.impl_compute [r] problem48.startingPoint = some [f] ∧
      problem48.startingPoint = [(3 : ℝ), 5, -3, 2, -2] ∧
      f = 84 ∧ f = problem48.ExpectedResult.f0 ∧
      |f - problem48.ExpectedResult.f0| ≤ problem48.f0_tol ∧
      (problem48.f0_tol : ℝ) = 1e-4 := by
  refine ⟨84, ?_, rfl, rfl, rfl, ?_, rfl⟩
  · rw [problem48.startingPoint, problem48_F_impl_compute_eq]; norm_num
  · norm_num [problem48.ExpectedResult.f0, problem48.f0_tol]

/-! ## Further evaluation lemmas -/

section SparseBodies
variable {K : Type} [Field K]

theorem problem48_G_impl_jacobian_sparse_body_eq (x : vector_t K) :
    problem48.G.impl_jacobian_sparse_body x
      = some [.insert (0, 0) 1, .insert (0, 1) 1, .insert (0, 2) 1, .insert (0, 3) 1,
          .insert (0, 4) 1, .insert (1, 2) 1, .insert (1, 3) (-2), .insert (1, 4) (-2)] := by
  simp [problem48.G.impl_jacobian_sparse_body]

theorem problem66_F_impl_gradient_sparse_body_eq (x : vector_t K) :
    problem66.F.impl_gradient_sparse_body x = some [.insert 0 (-0.8), .insert 2 0.2] := by
  simp [problem66.F.impl_gradient_sparse_body]

end SparseBodies

/-- A list of length five, written out. -/
theorem list_length_eq_five {α : Type} (l : List α) (h : l.length = 5) :
    ∃ a b c d e, l = [a, b, c, d, e] := by
  rcases l with _ | ⟨a, _ | ⟨b, _ | ⟨c, _ | ⟨d, _ | ⟨e, _ | ⟨f, l⟩⟩⟩⟩⟩⟩ <;>
    simp at h
  exact ⟨a, b, c, d, e, rfl⟩

/-- A dense matrix of shape `2 × 5`, written out. -/
theorem matrix_shape_two_five {K : Type} [Field K] (b : matrix_t K)
    (h : b.hasShape 2 5) :
    ∃ a0 a1 a2 a3 a4 b0 b1 b2 b3 b4, b = [[a0, a1, a2, a3, a4], [b0, b1, b2, b3, b4]] := by
  obtain ⟨hl, hr⟩ := h
  obtain ⟨r0, r1, rfl⟩ := List.length_eq_two.1 hl
  obtain ⟨a0, a1, a2, a3, a4, rfl⟩ := list_length_eq_five r0 (hr _ (by simp))
  obtain ⟨b0, b1, b2, b3, b4, rfl⟩ := list_length_eq_five r1 (hr _ (by simp))
  exact ⟨a0, a1, a2, a3, a4, b0, b1, b2, b3, b4, rfl⟩

/-- A dense matrix of shape `2 × 3`, written out. -/
theorem matrix_shape_two_three {K : Type} [Field K] (b : matrix_t K)
    (h : b.hasShape 2 3) :
    ∃ a0 a1 a2 b0 b1 b2, b = [[a0, a1, a2], [b0, b1, b2]] := by
  obtain ⟨hl, hr⟩ := h
  obtain ⟨r0, r1, rfl⟩ := List.length_eq_two.1 hl
  obtain ⟨a0, a1, a2, rfl⟩ := List.length_eq_three.1 (hr r0 (by simp))
  obtain ⟨b0, b1, b2, rfl⟩ := List.length_eq_three.1 (hr r1 (by simp))
  exact ⟨a0, a1, a2, b0, b1, b2, rfl⟩

theorem interval_wellFormed_makeInterval {K : Type} [LinearOrderedField K] (l u : K) :
    (makeInterval l u).wellFormed ↔ l ≤ u := by
  simp [interval_t.wellFormed, makeInterval]

theorem interval_wellFormed_makeLowerInterval {K : Type} [LinearOrderedField K] (l : K) :
    (makeLowerInterval l).wellFormed := by
  simp [interval_t.wellFormed, makeLowerInterval]

/-- Upper bound on `exp 1.05`, from `exp 1.05 = (exp 0.525)²`. -/
theorem exp_start_bound : Real.exp 1.05 ≤ 2.9 := by
  have h := Real.exp_bound' (by norm_num : (0 : ℝ) ≤ 21 / 40) (by norm_num)
    (by norm_num : 0 < 4)
  have e : Real.exp 1.05 = Real.exp (21 / 40) * Real.exp (21 / 40) := by
    rw [← Real.exp_add]; norm_num
  have p : 0 < Real.exp (21 / 40) := Real.exp_pos _
  norm_num [Finset.sum_range_succ, Nat.factorial] at h
  rw [e]
  nlinarith


/-! ## Claims, continued -/

/-- C11: problem 66 starting value.  `F::impl_compute` at the starting point
`x = (0, 1.05, 2.9)` of the test writes `result[0] = 0.58`, which is
`ExpectedResult::f0`, hence within the tolerance `f0_tol = 1e-4` of it; the equality is
exact over the rationals, with `0.2 = 1/5` and `0.8 = 4/5`. -/
theorem problem66_starting_value (r : ℝ) (q : ℚ) :
    (∃ f : ℝ, problem66.F.impl_compute [r] problem66.startingPoint = some [f] ∧
      problem66.startingPoint = [(0 : ℝ), 1.05, 2.9] ∧
      f = 0.58 ∧ f = problem66.ExpectedResult.f0 ∧
      |f - problem66.ExpectedResult.f0| ≤ problem66.f0_tol ∧
      (problem66.f0_tol : ℝ) = 1e-4) ∧
    (∃ f : ℚ, problem66.F.impl_compute [q] problem66.startingPoint = some [f] ∧
      f = 1 / 5 * (29 / 10) - 4 / 5 * 0 ∧
      f = 58 / 100 ∧ f = problem66.ExpectedResult.f0) := by
  constructor
  · refine ⟨0.58, ?_, rfl, rfl, rfl, ?_, rfl⟩
    · rw [problem66.startingPoint, problem66_F_impl_compute_eq]; norm_num
    · norm_num [problem66.ExpectedResult.f0, problem66.f0_tol]
  · refine ⟨58 / 100, ?_, ?_, rfl, ?_⟩
    · rw [problem66.startingPoint, problem66_F_impl_compute_eq]; norm_num
    · norm_num
    · norm_num [problem66.ExpectedResult.f0]

/-- Counterexample to C12 as stated: for problem 48 at `x = (0,0,0,0,0)`, row `0` of the
matrix written by `G::impl_jacobian` is `[1,1,1,1,1]`, while `G::impl_gradient (x, 0)`
started from a zero buffer leaves `[0,0,0,0,0]`. -/
theorem problem48_G_gradient_differs_from_jacobian_row :
    problem48.G.impl_jacobian (matrix_t.zero 2 5) [(0 : ℝ), 0, 0, 0, 0]
      = some [[1, 1, 1, 1, 1], [0, 0, 1, -2, -2]] ∧
    problem48.G.impl_gradient (vector_t.zero 5) [(0 : ℝ), 0, 0, 0, 0] 0
      = some [0, 0, 0, 0, 0] ∧
    ([[1, 1, 1, 1, 1], [0, 0, 1, -2, -2]] : matrix_t ℝ).getD 0 [] ≠ [0, 0, 0, 0, 0] := by
  refine ⟨?_, ?_, ?_⟩
  · exact problem48_G_impl_jacobian_eq 0 0 0 0 0 0 0 0 0 0 _
  · simp [problem48.G.impl_gradient, vector_t.zero, List.replicate]
  · simp

/-- C12, amended: for the constraint `G` of problem 48 and of problem 66,
`G::impl_gradient` has an empty body, so for every `x` and `i` it returns the gradient
buffer as it was; started from a zero-initialised buffer it yields the zero vector.  The
rows of the matrix written by `G::impl_jacobian` are never the zero vector, so they are
provided by `impl_jacobian` only. -/
theorem G_impl_gradient_leaves_buffer
    (grad : vector_t ℝ) (x : vector_t ℝ) (i : Nat)
    (a0 a1 a2 a3 a4 b0 b1 b2 b3 b4 x0 x1 x2 x3 x4 : ℝ) (c0 c1 c2 d0 d1 d2 y0 y1 y2 : ℝ) :
    problem48.G.impl_gradient grad x i = some grad ∧
    problem66.G.impl_gradient grad x i = some grad ∧
    problem48.G.impl_gradient (vector_t.zero problem48.G.inputSize) x i
      = some [(0 : ℝ), 0, 0, 0, 0] ∧
    problem66.G.impl_gradient (vector_t.zero problem66.G.inputSize) x i
      = some [(0 : ℝ), 0, 0] ∧
    (∃ jac : matrix_t ℝ,
      problem48.G.impl_jacobian [[a0, a1, a2, a3, a4], [b0, b1, b2, b3, b4]]
        [x0, x1, x2, x3, x4] = some jac ∧
      jac.getD 0 [] ≠ [0, 0, 0, 0, 0] ∧ jac.getD 1 [] ≠ [0, 0, 0, 0, 0]) ∧
    (∃ jac : matrix_t ℝ,
      problem66.G.impl_jacobian Real.exp [[c0, c1, c2], [d0, d1, d2]] [y0, y1, y2]
        = some jac ∧
      jac.getD 0 [] ≠ [0, 0, 0] ∧ jac.getD 1 [] ≠ [0, 0, 0]) := by
  refine ⟨rfl, rfl, ?_, ?_, ⟨_, problem48_G_impl_jacobian_eq _ _ _ _ _ _ _ _ _ _ _, ?_, ?_⟩,
    ⟨_, problem66_G_impl_jacobian_eq _ _ _ _ _ _ _ _ _ _, ?_, ?_⟩⟩
  · simp [problem48.G.impl_gradient, problem48.G.inputSize, vector_t.zero, List.replicate]
  · simp [problem66.G.impl_gradient, problem66.G.inputSize, vector_t.zero, List.replicate]
  · simp
  · simp
  · simp
  · simp

/-- Counterexample to C13 as stated: at `x = (1,1,1,1,1)` the sparse
`F::impl_gradient` of problem 48 inserts the five indices `0..4`, each with value `0`. -/
theorem problem48_F_sparse_inserts_zero :
    ∃ body : List (SparseStmt Nat ℝ),
      problem48.F.impl_gradient_sparse_body [(1 : ℝ), 1, 1, 1, 1] = some body ∧
      SparseStmt.inserted body = [0, 1, 2, 3, 4] ∧
      SparseStmt.values body = [0, 0, 0, 0, 0] := by
  refine ⟨_, problem48_F_impl_gradient_sparse_body_eq 1 1 1 1 1, ?_, ?_⟩
  · simp [SparseStmt.inserted]
  · simp [SparseStmt.values]

/-- C13, amended: for the sparse Jacobian of problem 48's `G` and the sparse gradient of
problem 66's `F`, every coefficient inserted, and stored in the result, is a nonzero
constant for every `x`.  The sparse Jacobian of problem 66's `G` stores `-exp(x0)`, `1`,
`-exp(x1)`, `1` at the fixed positions `(0,0)`, `(0,1)`, `(1,1)`, `(1,2)`, whatever
function `exp` is: the two constants are nonzero, the entry at `(0,0)` is nonzero exactly
when `exp(x0) ≠ 0` and the entry at `(1,1)` exactly when `exp(x1) ≠ 0`.  The sparse
gradient of problem 48's `F` stores `2(x0-1), 2(x1-x2), 2(-x1+x2), 2(x3-x4), 2(-x3+x4)` at
the fixed indices `0..4`; the first is nonzero exactly when `x0 ≠ 1`, the next two exactly
when `x1 ≠ x2`, the last two exactly when `x3 ≠ x4`. -/
theorem sparse_inserted_values_nonzero (exp : ℝ → ℝ) (x : vector_t ℝ) (k : Nat)
    (x0 x1 x2 x3 x4 y0 y1 y2 : ℝ) :
    (∃ (body : List (SparseStmt (Nat × Nat) ℝ)) (sjac : SparseMatrix ℝ),
      problem48.G.impl_jacobian_sparse_body x = some body ∧
      problem48.G.impl_jacobian_sparse
        (SparseMatrix.empty problem48.G.outputSize problem48.G.inputSize) x = some sjac ∧
      sjac.entries.map Prod.snd = SparseStmt.values body ∧
      (∀ v ∈ SparseStmt.values body, v ≠ 0) ∧
      ∀ e ∈ sjac.entries, e.2 ≠ 0) ∧
    (∃ (body : List (SparseStmt Nat ℝ)) (sgrad : SparseVector ℝ),
      problem66.F.impl_gradient_sparse_body x = some body ∧
      problem66.F.impl_gradient_sparse (SparseVector.empty problem66.F.inputSize) x k
        = some sgrad ∧
      sgrad.entries.map Prod.snd = SparseStmt.values body ∧
      (∀ v ∈ SparseStmt.values body, v ≠ 0) ∧
      ∀ e ∈ sgrad.entries, e.2 ≠ 0) ∧
    (∃ (body : List (SparseStmt (Nat × Nat) ℝ)) (sjac : SparseMatrix ℝ),
      problem66.G.impl_jacobian_sparse_body exp [y0, y1, y2] = some body ∧
      problem66.G.impl_jacobian_sparse exp
        (SparseMatrix.empty problem66.G.outputSize problem66.G.inputSize) [y0, y1, y2]
        = some sjac ∧
      sjac.entries.map Prod.snd = SparseStmt.values body ∧
      sjac.entries
        = [((0, 0), -exp y0), ((0, 1), 1), ((1, 1), -exp y1), ((1, 2), 1)] ∧
      SparseStmt.values body = [-exp y0, 1, -exp y1, 1] ∧
      (1 : ℝ) ≠ 0 ∧
      (-exp y0 ≠ 0 ↔ exp y0 ≠ 0) ∧ (-exp y1 ≠ 0 ↔ exp y1 ≠ 0)) ∧
    (∃ (body : List (SparseStmt Nat ℝ)) (sgrad : SparseVector ℝ),
      problem48.F.impl_gradient_sparse_body [x0, x1, x2, x3, x4] = some body ∧
      problem48.F.impl_gradient_sparse (SparseVector.empty problem48.F.inputSize)
        [x0, x1, x2, x3, x4] k = some sgrad ∧
      sgrad.entries.map Prod.snd = SparseStmt.values body ∧
      SparseStmt.inserted body = [0, 1, 2, 3, 4] ∧
      SparseStmt.values body
        = [2 * (x0 - 1), 2 * (x1 - x2), 2 * (-x1 + x2), 2 * (x3 - x4), 2 * (-x3 + x4)] ∧
      (2 * (x0 - 1) ≠ 0 ↔ x0 ≠ 1) ∧
      (2 * (x1 - x2) ≠ 0 ↔ x1 ≠ x2) ∧ (2 * (-x1 + x2) ≠ 0 ↔ x1 ≠ x2) ∧
      (2 * (x3 - x4) ≠ 0 ↔ x3 ≠ x4) ∧ (2 * (-x3 + x4) ≠ 0 ↔ x3 ≠ x4)) := by
  refine ⟨⟨_, _, problem48_G_impl_jacobian_sparse_body_eq x,
      problem48_G_impl_jacobian_sparse_eq x, ?_, ?_, ?_⟩,
    ⟨_, _, problem66_F_impl_gradient_sparse_body_eq x,
      problem66_F_impl_gradient_sparse_eq x k, ?_, ?_, ?_⟩,
    ⟨_, _, problem66_G_impl_jacobian_sparse_body_eq exp y0 y1 y2,
      problem66_G_impl_jacobian_sparse_eq exp y0 y1 y2, ?_, rfl, ?_, one_ne_zero, ?_, ?_⟩,
    ⟨_, _, problem48_F_impl_gradient_sparse_body_eq x0 x1 x2 x3 x4,
      problem48_F_impl_gradient_sparse_eq x0 x1 x2 x3 x4 k, ?_, ?_, ?_, ?_, ?_, ?_, ?_, ?_⟩⟩
  · simp [SparseStmt.values]
  · simp [SparseStmt.values]
  · simp [-Prod.mk_zero_zero, -Prod.mk_one_one]
  · simp [SparseStmt.values]
  · simp [SparseStmt.values]; norm_num
  · simp; norm_num
  · simp [SparseStmt.values]
  · simp [SparseStmt.values]
  · simp
  · simp
  · simp [SparseStmt.values]
  · simp [SparseStmt.inserted]
  · simp [SparseStmt.values]
  · simp [sub_eq_zero]
  · simp [sub_eq_zero]
  · simp [neg_add_eq_zero]
  · simp [sub_eq_zero]
  · simp [neg_add_eq_zero]

/-- C14: the sparse pattern is fixed.  For the sparse Jacobian of problem 48's `G` and of
problem 66's `G`, the positions inserted are the same for every pair of inputs `x`, `y`;
for problem 48 the inserted values are the same too; for problem 66 the values inserted at
`(0,0)` and `(1,1)` differ between `x = (0,0,0)` and `y = (1,1,0)`. -/
theorem sparse_jacobian_pattern_fixed (x y : vector_t ℝ) (x0 x1 x2 y0 y1 y2 : ℝ) :
    (∃ (bx bq : List (SparseStmt (Nat × Nat) ℝ)) (jx jy : SparseMatrix ℝ),
      problem48.G.impl_jacobian_sparse_body x = some bx ∧
      problem48.G.impl_jacobian_sparse_body y = some bq ∧
      problem48.G.impl_jacobian_sparse
        (SparseMatrix.empty problem48.G.outputSize problem48.G.inputSize) x = some jx ∧
      problem48.G.impl_jacobian_sparse
        (SparseMatrix.empty problem48.G.outputSize problem48.G.inputSize) y = some jy ∧
      SparseStmt.inserted bx = SparseStmt.inserted bq ∧
      SparseStmt.values bx = SparseStmt.values bq ∧
      jx.entries.map Prod.fst = jy.entries.map Prod.fst ∧
      jx = jy) ∧
    (∃ (bx bq : List (SparseStmt (Nat × Nat) ℝ)) (jx jy : SparseMatrix ℝ),
      problem66.G.impl_jacobian_sparse_body Real.exp [x0, x1, x2] = some bx ∧
      problem66.G.impl_jacobian_sparse_body Real.exp [y0, y1, y2] = some bq ∧
      problem66.G.impl_jacobian_sparse Real.exp
        (SparseMatrix.empty problem66.G.outputSize problem66.G.inputSize) [x0, x1, x2]
        = some jx ∧
      problem66.G.impl_jacobian_sparse Real.exp
        (SparseMatrix.empty problem66.G.outputSize problem66.G.inputSize) [y0, y1, y2]
        = some jy ∧
      SparseStmt.inserted bx = SparseStmt.inserted bq ∧
      jx.entries.map Prod.fst = jy.entries.map Prod.fst) ∧
    (∃ (jx jy : SparseMatrix ℝ),
      problem66.G.impl_jacobian_sparse Real.exp
        (SparseMatrix.empty problem66.G.outputSize problem66.G.inputSize) [0, 0, 0]
        = some jx ∧
      problem66.G.impl_jacobian_sparse Real.exp
        (SparseMatrix.empty problem66.G.outputSize problem66.G.inputSize) [1, 1, 0]
        = some jy ∧
      jx.coeff 0 0 ≠ jy.coeff 0 0 ∧ jx.coeff 1 1 ≠ jy.coeff 1 1) := by
  have hne : Real.exp 0 ≠ Real.exp 1 := fun h => by
    have := Real.exp_injective h
    norm_num at this
  refine ⟨⟨_, _, _, _, problem48_G_impl_jacobian_sparse_body_eq x,
      problem48_G_impl_jacobian_sparse_body_eq y, problem48_G_impl_jacobian_sparse_eq x,
      problem48_G_impl_jacobian_sparse_eq y, rfl, rfl, rfl, rfl⟩,
    ⟨_, _, _, _, problem66_G_impl_jacobian_sparse_body_eq Real.exp x0 x1 x2,
      problem66_G_impl_jacobian_sparse_body_eq Real.exp y0 y1 y2,
      problem66_G_impl_jacobian_sparse_eq Real.exp x0 x1 x2,
      problem66_G_impl_jacobian_sparse_eq Real.exp y0 y1 y2, ?_, ?_⟩,
    ⟨_, _, problem66_G_impl_jacobian_sparse_eq Real.exp 0 0 0,
      problem66_G_impl_jacobian_sparse_eq Real.exp 1 1 0, ?_, ?_⟩⟩
  · simp [SparseStmt.inserted]
  · simp
  · simpa [SparseMatrix.coeff, -Prod.mk_zero_zero, -Prod.mk_one_one] using hne
  · simpa [SparseMatrix.coeff, -Prod.mk_zero_zero, -Prod.mk_one_one] using hne

/-- C15: the sparse pattern covers every truly nonzero derivative entry.  For problem
48's `G` and problem 66's `G` and every `x`, run the sparse `impl_jacobian` on the empty
sparse matrix of the declared shape: at every position `(i,j)` it has not stored, the
derivative of output `i` of `impl_compute` along coordinate `j` is `0`.  For problem 66's
`F`, run the sparse `impl_gradient` on the empty sparse vector: index `1` is not stored,
and the derivative of `impl_compute` along every coordinate that is not stored is `0`.
This holds whatever function `exp` is. -/
theorem sparse_pattern_covers_nonzero_derivatives (exp : ℝ → ℝ) (k : Nat)
    (r r0 r1 x0 x1 x2 x3 x4 y0 y1 y2 : ℝ) :
    (∃ sjac : SparseMatrix ℝ,
      problem48.G.impl_jacobian_sparse
        (SparseMatrix.empty problem48.G.outputSize problem48.G.inputSize)
        [x0, x1, x2, x3, x4] = some sjac ∧
      sjac.entries.map Prod.fst
        = [(0, 0), (0, 1), (0, 2), (0, 3), (0, 4), (1, 2), (1, 3), (1, 4)] ∧
      ∀ (i : Fin 2) (j : Fin 5), ((i : Nat), (j : Nat)) ∉ sjac.entries.map Prod.fst →
        sjac.coeff i j = 0 ∧
        ∃ f : ℝ → ℝ,
          (∀ t : ℝ, ∃ result : vector_t ℝ,
            problem48.G.impl_compute [r0, r1] ([x0, x1, x2, x3, x4].set j t) = some result ∧
            result.getD i 0 = f t) ∧
          HasDerivAt f 0 ([x0, x1, x2, x3, x4].getD j 0)) ∧
    (∃ sjac : SparseMatrix ℝ,
      problem66.G.impl_jacobian_sparse exp
        (SparseMatrix.empty problem66.G.outputSize problem66.G.inputSize)
        [y0, y1, y2] = some sjac ∧
      sjac.entries.map Prod.fst = [(0, 0), (0, 1), (1, 1), (1, 2)] ∧
      ∀ (i : Fin 2) (j : Fin 3), ((i : Nat), (j : Nat)) ∉ sjac.entries.map Prod.fst →
        sjac.coeff i j = 0 ∧
        ∃ f : ℝ → ℝ,
          (∀ t : ℝ, ∃ result : vector_t ℝ,
            problem66.G.impl_compute exp [r0, r1] ([y0, y1, y2].set j t) = some result ∧
            result.getD i 0 = f t) ∧
          HasDerivAt f 0 ([y0, y1, y2].getD j 0)) ∧
    (∃ sgrad : SparseVector ℝ,
      problem66.F.impl_gradient_sparse (SparseVector.empty problem66.F.inputSize)
        [y0, y1, y2] k = some sgrad ∧
      sgrad.entries.map Prod.fst = [0, 2] ∧
      1 ∉ sgrad.entries.map Prod.fst ∧
      ∀ j : Fin 3, (j : Nat) ∉ sgrad.entries.map Prod.fst →
        sgrad.coeff j = 0 ∧
        ∃ f : ℝ → ℝ,
          (∀ t : ℝ, problem66.F.impl_compute [r] ([y0, y1, y2].set j t) = some [f t]) ∧
          HasDerivAt f 0 ([y0, y1, y2].getD j 0)) := by
  refine ⟨⟨_, problem48_G_impl_jacobian_sparse_eq _, ?_, ?_⟩,
    ⟨_, problem66_G_impl_jacobian_sparse_eq exp y0 y1 y2, ?_, ?_⟩,
    ⟨_, problem66_F_impl_gradient_sparse_eq _ k, ?_, ?_, ?_⟩⟩
  · simp [-Prod.mk_zero_zero, -Prod.mk_one_one]
  · intro i j h
    fin_cases i <;> fin_cases j <;>
      simp [-Prod.mk_zero_zero, -Prod.mk_one_one] at h
    · refine ⟨by simp [SparseMatrix.coeff, -Prod.mk_zero_zero, -Prod.mk_one_one], ?_⟩
      exact ⟨_, fun t => ⟨_, problem48_G_impl_compute_eq r0 r1 t x1 x2 x3 x4, rfl⟩,
        hasDerivAt_of_affine _ 0 (x2 - 2 * (x3 + x4)) _ (fun t => by simp)⟩
    · refine ⟨by simp [SparseMatrix.coeff, -Prod.mk_zero_zero, -Prod.mk_one_one], ?_⟩
      exact ⟨_, fun t => ⟨_, problem48_G_impl_compute_eq r0 r1 x0 t x2 x3 x4, rfl⟩,
        hasDerivAt_of_affine _ 0 (x2 - 2 * (x3 + x4)) _ (fun t => by simp)⟩
  · simp [-Prod.mk_zero_zero, -Prod.mk_one_one]
  · intro i j h
    fin_cases i <;> fin_cases j <;>
      simp [-Prod.mk_zero_zero, -Prod.mk_one_one] at h
    · refine ⟨by simp [SparseMatrix.coeff, -Prod.mk_zero_zero, -Prod.mk_one_one], ?_⟩
      exact ⟨_, fun t => ⟨_, problem66_G_impl_compute_eq exp r0 r1 y0 y1 t, rfl⟩,
        hasDerivAt_of_affine _ 0 (y1 - exp y0) _ (fun t => by simp)⟩
    · refine ⟨by simp [SparseMatrix.coeff, -Prod.mk_zero_zero, -Prod.mk_one_one], ?_⟩
      exact ⟨_, fun t => ⟨_, problem66_G_impl_compute_eq exp r0 r1 t y1 y2, rfl⟩,
        hasDerivAt_of_affine _ 0 (y2 - exp y1) _ (fun t => by simp)⟩
  · simp
  · simp
  · intro j h
    fin_cases j <;> simp at h
    refine ⟨by simp [SparseVector.coeff], ?_⟩
    exact ⟨_, fun t => problem66_F_impl_compute_eq r y0 t y2,
      hasDerivAt_of_affine _ 0 (0.2 * y2 - 0.8 * y0) _ (fun t => by ring)⟩

/-- Witness for C15: at `(0,0,0)` the sparse gradient of problem 66's `F` does not store
index `1`, and the derivative along it is `0`. -/
theorem sparse_pattern_covers_nonzero_derivatives_witness :
    ∃ sgrad : SparseVector ℝ,
      problem66.F.impl_gradient_sparse (SparseVector.empty problem66.F.inputSize)
        [(0 : ℝ), 0, 0] 0 = some sgrad ∧
      1 ∉ sgrad.entries.map Prod.fst ∧
      sgrad.coeff 1 = 0 ∧
      ∃ f : ℝ → ℝ,
        (∀ t : ℝ, problem66.F.impl_compute [0] ([(0 : ℝ), 0, 0].set 1 t) = some [f t]) ∧
        HasDerivAt f 0 ([(0 : ℝ), 0, 0].getD 1 0) := by
  obtain ⟨sgrad, hs, -, h1, h⟩ :=
    (sparse_pattern_covers_nonzero_derivatives Real.exp 0 0 0 0 0 0 0 0 0 0 0 0).2.2
  exact ⟨sgrad, hs, h1, h 1 h1⟩

/-- C16: dimension invariant and in-range indexing.  With the dimensions declared by the
constructors (problem 48: `F` is `5 -> 1`, `G` is `5 -> 2`; problem 66: `F` is `3 -> 1`,
`G` is `3 -> 2`), given an argument of length `n`: every body can read its argument, every
index written by `impl_compute` is `< m`, every index written by `F`'s `impl_gradient`
(dense and sparse) is `< n`, every position written by `G`'s `impl_jacobian` (dense and
sparse) has row `< m` and column `< n`; run on output buffers of the declared sizes the
functions succeed and the outputs have exactly `m`, `n` and `m x n` elements. -/
theorem in_range_indexing {K : Type} [Field K] (exp : K → K) (x y : vector_t K)
    (hx : x.length = problem48.F.inputSize) (hy : y.length = problem66.F.inputSize) :
    (problem48.F.inputSize = 5 ∧ problem48.F.outputSize = 1 ∧
      problem48.G.inputSize = 5 ∧ problem48.G.outputSize = 2 ∧
      problem66.F.inputSize = 3 ∧ problem66.F.outputSize = 1 ∧
      problem66.G.inputSize = 3 ∧ problem66.G.outputSize = 2) ∧
    ((∃ body, problem48.F.impl_compute_body x = some body ∧
        ∀ p ∈ DenseStmt.assigned body, p < problem48.F.outputSize) ∧
      (∀ result : vector_t K, result.length = problem48.F.outputSize →
        ∃ r, problem48.F.impl_compute result x = some r ∧
          r.length = problem48.F.outputSize) ∧
      (∃ body, problem48.F.impl_gradient_body x = some body ∧
        ∀ p ∈ DenseStmt.assigned body, p < problem48.F.inputSize) ∧
      (∀ (grad : vector_t K) (k : Nat), grad.length = problem48.F.inputSize →
        ∃ g, problem48.F.impl_gradient grad x k = some g ∧
          g.length = problem48.F.inputSize) ∧
      (∃ body, problem48.F.impl_gradient_sparse_body x = some body ∧
        ∀ p ∈ SparseStmt.inserted body, p < problem48.F.inputSize) ∧
      (∀ k : Nat, ∃ g,
        problem48.F.impl_gradient_sparse (SparseVector.empty problem48.F.inputSize) x k
          = some g ∧
        g.size = problem48.F.inputSize) ∧
      (∃ body, problem48.G.impl_compute_body x = some body ∧
        ∀ p ∈ DenseStmt.assigned body, p < problem48.G.outputSize) ∧
      (∀ result : vector_t K, result.length = problem48.G.outputSize →
        ∃ r, problem48.G.impl_compute result x = some r ∧
          r.length = problem48.G.outputSize) ∧
      (∃ body, problem48.G.impl_jacobian_body x = some body ∧
        ∀ p ∈ DenseStmt.assigned body,
          p.1 < problem48.G.outputSize ∧ p.2 < problem48.G.inputSize) ∧
      (∀ jac : matrix_t K, jac.hasShape problem48.G.outputSize problem48.G.inputSize →
        ∃ j, problem48.G.impl_jacobian jac x = some j ∧
          j.hasShape problem48.G.outputSize problem48.G.inputSize) ∧
      (∃ body, problem48.G.impl_jacobian_sparse_body x = some body ∧
        ∀ p ∈ SparseStmt.inserted body,
          p.1 < problem48.G.outputSize ∧ p.2 < problem48.G.inputSize) ∧
      (∃ j,
        problem48.G.impl_jacobian_sparse
          (SparseMatrix.empty problem48.G.outputSize problem48.G.inputSize) x = some j ∧
        j.rows = problem48.G.outputSize ∧ j.cols = problem48.G.inputSize)) ∧
    ((∃ body, problem66.F.impl_compute_body y = some body ∧
        ∀ p ∈ DenseStmt.assigned body, p < problem66.F.outputSize) ∧
      (∀ result : vector_t K, result.length = problem66.F.outputSize →
        ∃ r, problem66.F.impl_compute result y = some r ∧
          r.length = problem66.F.outputSize) ∧
      (∃ body, problem66.F.impl_gradient_body y = some body ∧
        ∀ p ∈ DenseStmt.assigned body, p < problem66.F.inputSize) ∧
      (∀ (grad : vector_t K) (k : Nat), grad.length = problem66.F.inputSize →
        ∃ g, problem66.F.impl_gradient grad y k = some g ∧
          g.length = problem66.F.inputSize) ∧
      (∃ body, problem66.F.impl_gradient_sparse_body y = some body ∧
        ∀ p ∈ SparseStmt.inserted body, p < problem66.F.inputSize) ∧
      (∀ k : Nat, ∃ g,
        problem66.F.impl_gradient_sparse (SparseVector.empty problem66.F.inputSize) y k
          = some g ∧
        g.size = problem66.F.inputSize) ∧
      (∃ body, problem66.G.impl_compute_body exp y = some body ∧
        ∀ p ∈ DenseStmt.assigned body, p < problem66.G.outputSize) ∧
      (∀ result : vector_t K, result.length = problem66.G.outputSize →
        ∃ r, problem66.G.impl_compute exp result y = some r ∧
          r.length = problem66.G.outputSize) ∧
      (∃ body, problem66.G.impl_jacobian_body exp y = some body ∧
        ∀ p ∈ DenseStmt.assigned body,
          p.1 < problem66.G.outputSize ∧ p.2 < problem66.G.inputSize) ∧
      (∀ jac : matrix_t K, jac.hasShape problem66.G.outputSize problem66.G.inputSize →
        ∃ j, problem66.G.impl_jacobian exp jac y = some j ∧
          j.hasShape problem66.G.outputSize problem66.G.inputSize) ∧
      (∃ body, problem66.G.impl_jacobian_sparse_body exp y = some body ∧
        ∀ p ∈ SparseStmt.inserted body,
          p.1 < problem66.G.outputSize ∧ p.2 < problem66.G.inputSize) ∧
      (∃ j,
        problem66.G.impl_jacobian_sparse exp
          (SparseMatrix.empty problem66.G.outputSize problem66.G.inputSize) y = some j ∧
        j.rows = problem66.G.outputSize ∧ j.cols = problem66.G.inputSize)) := by
  refine ⟨⟨rfl, rfl, rfl, rfl, rfl, rfl, rfl, rfl⟩, ?_, ?_⟩
  · obtain ⟨x0, x1, x2, x3, x4, rfl⟩ := list_length_eq_five x hx
    refine ⟨?_, ?_, ?_, ?_, ?_, ?_, ?_, ?_, ?_, ?_, ?_, ?_⟩
    · simp [problem48.F.impl_compute_body, DenseStmt.assigned, problem48.F.outputSize]
    · intro result hr
      obtain ⟨r, rfl⟩ := List.length_eq_one.1 hr
      exact ⟨_, problem48_F_impl_compute_eq r x0 x1 x2 x3 x4, rfl⟩
    · simp [problem48.F.impl_gradient_body, DenseStmt.assigned, problem48.F.inputSize]
      intros; omega
    · intro grad k hg
      obtain ⟨g0, g1, g2, g3, g4, rfl⟩ := list_length_eq_five grad hg
      exact ⟨_, problem48_F_impl_gradient_eq g0 g1 g2 g3 g4 x0 x1 x2 x3 x4 k, rfl⟩
    · simp [problem48.F.impl_gradient_sparse_body, SparseStmt.inserted, problem48.F.inputSize]
    · intro k
      exact ⟨_, problem48_F_impl_gradient_sparse_eq x0 x1 x2 x3 x4 k, rfl⟩
    · simp [problem48.G.impl_compute_body, DenseStmt.assigned, problem48.G.outputSize]
      intros; omega
    · intro result hr
      obtain ⟨r0, r1, rfl⟩ := List.length_eq_two.1 hr
      exact ⟨_, problem48_G_impl_compute_eq r0 r1 x0 x1 x2 x3 x4, rfl⟩
    · simp [problem48.G.impl_jacobian_body, DenseStmt.assigned, problem48.G.outputSize,
        problem48.G.inputSize, -Prod.mk_zero_zero, -Prod.mk_one_one]
      intros; omega
    · intro jac hj
      obtain ⟨a0, a1, a2, a3, a4, b0, b1, b2, b3, b4, rfl⟩ := matrix_shape_two_five jac hj
      refine ⟨_, problem48_G_impl_jacobian_eq a0 a1 a2 a3 a4 b0 b1 b2 b3 b4 _, ?_⟩
      simp [matrix_t.hasShape, problem48.G.outputSize, problem48.G.inputSize]
    · simp [problem48.G.impl_jacobian_sparse_body, SparseStmt.inserted, problem48.G.outputSize,
        problem48.G.inputSize, -Prod.mk_zero_zero, -Prod.mk_one_one]
    · exact ⟨_, problem48_G_impl_jacobian_sparse_eq _, rfl, rfl⟩
  · obtain ⟨x0, x1, x2, rfl⟩ := List.length_eq_three.1 hy
    refine ⟨?_, ?_, ?_, ?_, ?_, ?_, ?_, ?_, ?_, ?_, ?_, ?_⟩
    · simp [problem66.F.impl_compute_body, DenseStmt.assigned, problem66.F.outputSize]
    · intro result hr
      obtain ⟨r, rfl⟩ := List.length_eq_one.1 hr
      exact ⟨_, problem66_F_impl_compute_eq r x0 x1 x2, rfl⟩
    · simp [problem66.F.impl_gradient_body, DenseStmt.assigned, problem66.F.inputSize]
      intros; omega
    · intro grad k hg
      obtain ⟨g0, g1, g2, rfl⟩ := List.length_eq_three.1 hg
      exact ⟨_, problem66_F_impl_gradient_eq g0 g1 g2 _ k, rfl⟩
    · simp [problem66.F.impl_gradient_sparse_body, SparseStmt.inserted, problem66.F.inputSize]
    · intro k
      exact ⟨_, problem66_F_impl_gradient_sparse_eq _ k, rfl⟩
    · simp [problem66.G.impl_compute_body, DenseStmt.assigned, problem66.G.outputSize]
      intros; omega
    · intro result hr
      obtain ⟨r0, r1, rfl⟩ := List.length_eq_two.1 hr
      exact ⟨_, problem66_G_impl_compute_eq exp r0 r1 x0 x1 x2, rfl⟩
    · simp [problem66.G.impl_jacobian_body, DenseStmt.assigned, problem66.G.outputSize,
        problem66.G.inputSize, -Prod.mk_zero_zero, -Prod.mk_one_one]
      intros; omega
    · intro jac hj
      obtain ⟨a0, a1, a2, b0, b1, b2, rfl⟩ := matrix_shape_two_three jac hj
      refine ⟨_, problem66_G_impl_jacobian_eq exp a0 a1 a2 b0 b1 b2 x0 x1 x2, ?_⟩
      simp [matrix_t.hasShape, problem66.G.outputSize, problem66.G.inputSize]
    · simp [problem66.G.impl_jacobian_sparse_body, SparseStmt.inserted, problem66.G.outputSize,
        problem66.G.inputSize, -Prod.mk_zero_zero, -Prod.mk_one_one]
    · exact ⟨_, problem66_G_impl_jacobian_sparse_eq exp x0 x1 x2, rfl, rfl⟩

/-- Witness for C16: the starting points of the two tests have the declared lengths. -/
theorem in_range_indexing_witness :
    ∃ r : vector_t ℝ,
      problem48.F.impl_compute [0] [(3 : ℝ), 5, -3, 2, -2] = some r ∧
      r.length = problem48.F.outputSize :=
  (in_range_indexing Real.exp [(3 : ℝ), 5, -3, 2, -2] [0, 1.05, 2.9] rfl rfl).2.1.2.1 [0] rfl

/-- C17: the problems assembled by the two tests satisfy the constraint-descriptor and
problem invariants.  In each test the interval list passed to `addConstraint` has
`m = 2` entries, the scale list has `g->outputSize () = 2` entries, all equal to `1`
(hence positive), the input size of `G` equals the input size of `F` (`5` for problem 48,
`3` for problem 66), the starting point has `n` components, and every interval has
`lo <= hi`: problem 48 has `[5,5]` and `[-3,-3]` (with `lo = hi`), problem 66 has the
constraint intervals `[0,+inf)` twice and the variable bounds `[0,100]`, `[0,100]`,
`[0,10]`. -/
theorem test_problems_satisfy_invariants :
    ((problem48.intervals : List (interval_t ℝ)).length = problem48.G.outputSize ∧
      problem48.G.outputSize = 2 ∧
      (problem48.scales : List ℝ).length = problem48.G.outputSize ∧
      (∀ s ∈ (problem48.scales : List ℝ), s = 1 ∧ 0 < s) ∧
      problem48.G.inputSize = problem48.F.inputSize ∧ problem48.F.inputSize = 5 ∧
      (problem48.startingPoint : vector_t ℝ).length = problem48.F.inputSize ∧
      (problem48.intervals : List (interval_t ℝ))
        = [makeInterval 5 5, makeInterval (-3) (-3)] ∧
      (∀ i ∈ (problem48.intervals : List (interval_t ℝ)), i.wellFormed ∧ i.1 = i.2)) ∧
    ((problem66.intervals : List (interval_t ℝ)).length = problem66.G.outputSize ∧
      problem66.G.outputSize = 2 ∧
      (problem66.scales : List ℝ).length = problem66.G.outputSize ∧
      (∀ s ∈ (problem66.scales : List ℝ), s = 1 ∧ 0 < s) ∧
      problem66.G.inputSize = problem66.F.inputSize ∧ problem66.F.inputSize = 3 ∧
      (problem66.startingPoint : vector_t ℝ).length = problem66.F.inputSize ∧
      (problem66.intervals : List (interval_t ℝ))
        = [makeLowerInterval 0, makeLowerInterval 0] ∧
      (∀ i ∈ (problem66.intervals : List (interval_t ℝ)), i.wellFormed) ∧
      (problem66.argumentBounds : List (interval_t ℝ)).length = problem66.F.inputSize ∧
      (problem66.argumentBounds : List (interval_t ℝ))
        = [makeInterval 0 100, makeInterval 0 100, makeInterval 0 10] ∧
      (∀ i ∈ (problem66.argumentBounds : List (interval_t ℝ)), i.wellFormed)) := by
  refine ⟨⟨rfl, rfl, rfl, ?_, rfl, rfl, rfl, rfl, ?_⟩,
    ⟨rfl, rfl, rfl, ?_, rfl, rfl, rfl, rfl, ?_, rfl, rfl, ?_⟩⟩
  · intro s hs
    simp [problem48.scales, problem48.G.outputSize, List.replicate] at hs
    subst hs; norm_num
  · intro i hi
    simp only [problem48.intervals, List.nil_append, List.cons_append, List.mem_cons,
      List.mem_singleton, List.not_mem_nil, or_false] at hi
    rcases hi with rfl | rfl
    · exact ⟨(interval_wellFormed_makeInterval _ _).2 le_rfl, rfl⟩
    · exact ⟨(interval_wellFormed_makeInterval _ _).2 le_rfl, rfl⟩
  · intro s hs
    simp [problem66.scales, problem66.G.outputSize, List.replicate] at hs
    subst hs; norm_num
  · intro i hi
    simp only [problem66.intervals, List.nil_append, List.cons_append, List.mem_cons,
      List.mem_singleton, List.not_mem_nil, or_false] at hi
    rcases hi with rfl | rfl <;> exact interval_wellFormed_makeLowerInterval _
  · intro i hi
    simp only [problem66.argumentBounds, problem66.F.inputSize, List.replicate, List.set,
      List.mem_cons, List.mem_singleton, List.not_mem_nil, or_false] at hi
    rcases hi with rfl | rfl | rfl <;>
      exact (interval_wellFormed_makeInterval _ _).2 (by norm_num)

/-- C18: statelessness of evaluation.  For every function of both problems and every
`x`, the buffer after `impl_compute`, after the dense `impl_gradient` of `F` and after the
dense `impl_jacobian` of `G` does not depend on what the buffer held before: two initial
buffers of the declared size give the same result.  The dense `impl_gradient` of problem
48's `F`, which does not zero-fill, consists of five assignments, to the indices `0..4`. -/
theorem evaluation_ignores_buffer_content
    (r r' r0 r1 r0' r1' g0 g1 g2 g3 g4 g0' g1' g2' g3' g4' : ℝ)
    (a0 a1 a2 a3 a4 b0 b1 b2 b3 b4 a0' a1' a2' a3' a4' b0' b1' b2' b3' b4' : ℝ)
    (x0 x1 x2 x3 x4 y0 y1 y2 : ℝ) (k : Nat) :
    (∃ out, problem48.F.impl_compute [r] [x0, x1, x2, x3, x4] = some out ∧
      problem48.F.impl_compute [r'] [x0, x1, x2, x3, x4] = some out) ∧
    (∃ out, problem48.F.impl_gradient [g0, g1, g2, g3, g4] [x0, x1, x2, x3, x4] k = some out ∧
      problem48.F.impl_gradient [g0', g1', g2', g3', g4'] [x0, x1, x2, x3, x4] k
        = some out) ∧
    (∃ body, problem48.F.impl_gradient_body [x0, x1, x2, x3, x4] = some body ∧
      DenseStmt.assigned body = [0, 1, 2, 3, 4] ∧ body.length = 5) ∧
    (∃ out, problem48.G.impl_compute [r0, r1] [x0, x1, x2, x3, x4] = some out ∧
      problem48.G.impl_compute [r0', r1'] [x0, x1, x2, x3, x4] = some out) ∧
    (∃ out,
      problem48.G.impl_jacobian [[a0, a1, a2, a3, a4], [b0, b1, b2, b3, b4]]
        [x0, x1, x2, x3, x4] = some out ∧
      problem48.G.impl_jacobian [[a0', a1', a2', a3', a4'], [b0', b1', b2', b3', b4']]
        [x0, x1, x2, x3, x4] = some out) ∧
    (∃ out, problem66.F.impl_compute [r] [y0, y1, y2] = some out ∧
      problem66.F.impl_compute [r'] [y0, y1, y2] = some out) ∧
    (∃ out, problem66.F.impl_gradient [g0, g1, g2] [y0, y1, y2] k = some out ∧
      problem66.F.impl_gradient [g0', g1', g2'] [y0, y1, y2] k = some out) ∧
    (∃ out, problem66.G.impl_compute Real.exp [r0, r1] [y0, y1, y2] = some out ∧
      problem66.G.impl_compute Real.exp [r0', r1'] [y0, y1, y2] = some out) ∧
    (∃ out,
      problem66.G.impl_jacobian Real.exp [[a0, a1, a2], [b0, b1, b2]] [y0, y1, y2]
        = some out ∧
      problem66.G.impl_jacobian Real.exp [[a0', a1', a2'], [b0', b1', b2']] [y0, y1, y2]
        = some out) := by
  refine ⟨⟨_, problem48_F_impl_compute_eq _ _ _ _ _ _,
      problem48_F_impl_compute_eq _ _ _ _ _ _⟩,
    ⟨_, problem48_F_impl_gradient_eq _ _ _ _ _ _ _ _ _ _ _,
      problem48_F_impl_gradient_eq _ _ _ _ _ _ _ _ _ _ _⟩,
    ⟨_, problem48_F_impl_gradient_body_eq _ _ _ _ _, ?_, rfl⟩,
    ⟨_, problem48_G_impl_compute_eq _ _ _ _ _ _ _, problem48_G_impl_compute_eq _ _ _ _ _ _ _⟩,
    ⟨_, problem48_G_impl_jacobian_eq _ _ _ _ _ _ _ _ _ _ _,
      problem48_G_impl_jacobian_eq _ _ _ _ _ _ _ _ _ _ _⟩,
    ⟨_, problem66_F_impl_compute_eq _ _ _ _, problem66_F_impl_compute_eq _ _ _ _⟩,
    ⟨_, problem66_F_impl_gradient_eq _ _ _ _ _, problem66_F_impl_gradient_eq _ _ _ _ _⟩,
    ⟨_, problem66_G_impl_compute_eq _ _ _ _ _ _, problem66_G_impl_compute_eq _ _ _ _ _ _⟩,
    ⟨_, problem66_G_impl_jacobian_eq _ _ _ _ _ _ _ _ _ _,
      problem66_G_impl_jacobian_eq _ _ _ _ _ _ _ _ _ _⟩⟩
  simp [DenseStmt.assigned]

/-- C19: problem 48 starting point is feasible.  `G::impl_compute` at the starting point
`(3, 5, -3, 2, -2)` of the test yields exactly `(5, -3)`, and both components lie in the
intervals `[5,5]` and `[-3,-3]` passed to `addConstraint`. -/
theorem problem48_starting_point_feasible (r0 r1 : ℝ) :
    problem48.startingPoint = [(3 : ℝ), 5, -3, 2, -2] ∧
    (problem48.intervals : List (interval_t ℝ))
      = [makeInterval 5 5, makeInterval (-3) (-3)] ∧
    ∃ g : vector_t ℝ,
      problem48.G.impl_compute [r0, r1] problem48.startingPoint = some g ∧
      g = [5, -3] ∧
      List.Forall₂ interval_t.contains problem48.intervals g := by
  refine ⟨rfl, rfl, [5, -3], ?_, rfl, ?_⟩
  · rw [problem48.startingPoint, problem48_G_impl_compute_eq]; norm_num
  · simp [problem48.intervals, interval_contains_makeInterval]

/-- C20: problem 66 starting point is feasible.  The starting point `(0, 1.05, 2.9)` of
the test lies inside the variable bounds `[0,100] x [0,100] x [0,10]`, and
`G::impl_compute` there yields `(1.05 - exp(0), 2.9 - exp(1.05))` with both components
`>= 0` (the first equals `0.05`), so both lie in the intervals `[0, +inf)` passed to
`addConstraint`. -/
theorem problem66_starting_point_feasible (r0 r1 : ℝ) :
    problem66.startingPoint = [(0 : ℝ), 1.05, 2.9] ∧
    List.Forall₂ interval_t.contains
      [makeInterval (0 : ℝ) 100, makeInterval 0 100, makeInterval 0 10]
      problem66.startingPoint ∧
    List.Forall₂ interval_t.contains problem66.argumentBounds
      (problem66.startingPoint : vector_t ℝ) ∧
    (∃ g0 g1 : ℝ,
      problem66.G.impl_compute Real.exp [r0, r1] problem66.startingPoint = some [g0, g1] ∧
      g0 = 1.05 - Real.exp 0 ∧ g1 = 2.9 - Real.exp 1.05 ∧
      g0 = 0.05 ∧ g0 ≥ 0 ∧ g1 ≥ 0 ∧
      List.Forall₂ interval_t.contains problem66.intervals [g0, g1]) ∧
    (problem66.intervals : List (interval_t ℝ))
      = [makeLowerInterval 0, makeLowerInterval 0] ∧
    problem66.feasible Real.exp problem66.startingPoint := by
  have hb : List.Forall₂ interval_t.contains
      [makeInterval (0 : ℝ) 100, makeInterval 0 100, makeInterval 0 10]
      problem66.startingPoint := by
    simp only [problem66.startingPoint, List.forall₂_cons, List.Forall₂.nil,
      interval_contains_makeInterval, and_true]
    norm_num
  have h0 : (1.05 : ℝ) - Real.exp 0 = 0.05 := by rw [Real.exp_zero]; norm_num
  have h1 : (0 : ℝ) ≤ 2.9 - Real.exp 1.05 := by linarith [exp_start_bound]
  refine ⟨rfl, hb, hb,
    ⟨_, _, problem66_G_impl_compute_eq _ _ _ _ _ _, rfl, rfl, h0, ?_, h1, ?_⟩, rfl, ?_⟩
  · rw [h0]; norm_num
  · simp only [problem66.intervals, List.nil_append, List.cons_append, List.forall₂_cons,
      List.Forall₂.nil, interval_contains_makeLowerInterval, and_true]
    exact ⟨by rw [h0]; norm_num, h1⟩
  · rw [problem66.startingPoint, problem66_feasible_iff]
    refine ⟨by norm_num, by norm_num, by norm_num, ?_, h1⟩
    rw [h0]; norm_num

end schittkowski

end roboptim
